import Mathlib

set_option maxRecDepth 4000

/-!
Shallow embedding of grub-core/loader/i386/efi/linux.c (the linuxefi GRUB
module).  The module-level mutable variables (loaded, kernel_mem,
kernel_size, initrd_mem, params, linux_cmdline, handover_offset) become
fields of an explicit state record.  The EFI page allocator is modelled by
a fresh-address allocator together with a list of live allocations and an
event trace recording every allocation, release, measurement and
verification call, so that exactly-once-release and ordering properties
can be stated.  The byte-level payload copies, the file objects and the
command-line text are external collaborators in the specification and are
not needed by the claims about resource lifecycle; the kernel header is
modelled as a record of the numeric fields the module reads and writes.
-/

namespace LinuxEfi

/-- The four firmware page resources owned by the module. -/
inductive Kind
  | params
  | cmdline
  | kernel
  | initrd
deriving DecidableEq, Repr

instance : Fintype Kind :=
  ⟨⟨{Kind.params, Kind.cmdline, Kind.kernel, Kind.initrd}, by decide⟩, by
    intro k; cases k <;> decide⟩

/-- The grub error numbers the module raises (GRUB_ERR_*). -/
inductive ErrNo
  | none
  | badArgument
  | outOfMemory
  | fileReadError
  | badOS
  | invalidCommand
  | fileOpenError
deriving DecidableEq, Repr

/-- Observable events of one execution: firmware page allocation and
release, allocation and release of the transient kernel file buffer
(grub_malloc and grub_free of the kernel pointer), TPM measurement,
the shim verification call, and the three steps at the end of a
successful load (loaded = 1, the two-sector header copy into params,
and the type_of_loader store). -/
inductive Event
  | allocPages (addr pages : Nat) (k : Kind)
  | freePages (addr pages : Nat)
  | kmalloc
  | kfree
  | measure (label : String)
  | validate (ok : Bool)
  | loadedFlip
  | copyHdrToParams
  | setTypeOfLoader
deriving DecidableEq, Repr

/-- The fields of struct linux_kernel_header that the module reads or
writes.  The same layout forms the first two sectors of struct
linux_kernel_params, so the header area of the boot parameter block is
modelled by the same record. -/
structure KHdr where
  boot_flag : Nat
  setup_sects : Nat
  version : Nat
  handover_offset : Nat
  pref_address : Nat
  init_size : Nat
  cmdline_size : Nat
  ramdisk_image : Nat
  ramdisk_size : Nat
  cmd_line_ptr : Nat
  code32_start : Nat
  type_of_loader : Nat
deriving DecidableEq, Repr

/-- The all-zero header value (the memset of the params block). -/
def zeroHdr : KHdr :=
  { boot_flag := 0, setup_sects := 0, version := 0, handover_offset := 0,
    pref_address := 0, init_size := 0, cmdline_size := 0, ramdisk_image := 0,
    ramdisk_size := 0, cmd_line_ptr := 0, code32_start := 0, type_of_loader := 0 }

/-- A live firmware allocation: its physical address, its size in pages,
and which of the four resources it was requested for. -/
structure Cell where
  addr : Nat
  pages : Nat
  kind : Kind
deriving DecidableEq, Repr

/-- The module state: the static variables of linux.c, the contents of the
header area of the boot parameter block (paramsBlk, meaningful while
params is nonzero), the bytes staged into the initrd buffer, and the
allocator bookkeeping (fresh counter, live allocations, event trace).
Pointers are physical addresses with 0 for NULL; the source never clears
a pointer variable after freeing it, and neither does this model. -/
structure S where
  loaded : Bool
  kernel_mem : Nat
  kernel_size : Nat
  initrd_mem : Nat
  params : Nat
  linux_cmdline : Nat
  handover_offset : Nat
  paramsBlk : KHdr
  initrdData : List Nat
  ctr : Nat
  heap : List Cell
  trace : List Event
  errno : ErrNo
  errmsg : String
deriving DecidableEq, Repr

/-- The initial state: all statics zero, no allocations. -/
def S0 : S :=
  { loaded := false, kernel_mem := 0, kernel_size := 0, initrd_mem := 0,
    params := 0, linux_cmdline := 0, handover_offset := 0, paramsBlk := zeroHdr,
    initrdData := [], ctr := 0, heap := [], trace := [],
    errno := ErrNo.none, errmsg := "" }

/-- BYTES_TO_PAGES from linux.c: (bytes + 0xfff) >> 12. -/
def BYTES_TO_PAGES (bytes : Nat) : Nat := (bytes + 0xfff) >>> 12

/-- GRUB_LINUX_MAX_SETUP_SECTS from grub's i386 linux header. -/
def GRUB_LINUX_MAX_SETUP_SECTS : Nat := 64

/-- ALIGN_UP for a power-of-two alignment, written with division; for
align = 4 this agrees with the mask form used in grub's misc header. -/
def ALIGN_UP (n a : Nat) : Nat := ((n + a - 1) / a) * a

/-- ALIGN_UP_OVERHEAD: the number of padding bytes up to the alignment. -/
def ALIGN_UP_OVERHEAD (n a : Nat) : Nat := (a - n % a) % a

/-- Address handed out by the model allocator for the n-th allocation:
fresh, nonzero and page aligned. -/
def pageAddr (n : Nat) : Nat := 4096 * (n + 1)

/-- The address a page allocation call returns: fresh on success, 0
(NULL) on failure.  Success or failure at each call site is an input
supplied by the environment, as the platform allocator is external. -/
def allocAddr (s : S) (ok : Bool) : Nat := if ok then pageAddr s.ctr else 0

/-- State effect of grub_efi_allocate_pages / grub_efi_allocate_pages_max:
on success records a live allocation and an allocation event. -/
def efiAllocatePages (s : S) (k : Kind) (pages : Nat) (ok : Bool) : S :=
  if ok then
    { s with ctr := s.ctr + 1,
             heap := { addr := pageAddr s.ctr, pages := pages, kind := k } :: s.heap,
             trace := s.trace ++ [Event.allocPages (pageAddr s.ctr) pages k] }
  else s

/-- grub_efi_free_pages: removes the allocation at the given address from
the live list (whatever page count is passed) and records the call. -/
def efiFreePages (s : S) (addr pages : Nat) : S :=
  { s with heap := s.heap.filter (fun c => c.addr != addr),
           trace := s.trace ++ [Event.freePages addr pages] }

/-- The external collaborators consulted by grub_linuxefi_secure_validate:
whether the shim lock protocol is installed, the verdict of its verify
call, and the platform secure boot query. -/
structure ShimEnv where
  shimPresent : Bool
  shimVerify : Bool
  secureBoot : Bool
deriving DecidableEq, Repr

/-- grub_linuxefi_secure_validate, lines 55..74: without the shim lock
protocol the result is the negation of the secure boot query; with it,
the shim verdict is trusted. -/
def grub_linuxefi_secure_validate (e : ShimEnv) : Bool :=
  if e.shimPresent = false then
    if e.secureBoot then false else true
  else if e.shimVerify then true else false

/-- Line 105..106 of grub_linuxefi_unload: free the initrd buffer when
its pointer is nonzero, with the page count recomputed from the
ramdisk_size field of the params block. -/
def unloadFreeInitrd (s : S) : S :=
  if s.initrd_mem ≠ 0 then
    efiFreePages s s.initrd_mem (BYTES_TO_PAGES s.paramsBlk.ramdisk_size)
  else s

/-- Line 107..108: free the command line buffer when its pointer is
nonzero, with the page count recomputed from the cmdline_size field of
the params block. -/
def unloadFreeCmdline (s : S) : S :=
  if s.linux_cmdline ≠ 0 then
    efiFreePages s s.linux_cmdline (BYTES_TO_PAGES (s.paramsBlk.cmdline_size + 1))
  else s

/-- Line 109..110: free the kernel region when its pointer is nonzero,
with the page count computed from the static kernel_size, which no line
of the module ever assigns. -/
def unloadFreeKernel (s : S) : S :=
  if s.kernel_mem ≠ 0 then
    efiFreePages s s.kernel_mem (BYTES_TO_PAGES s.kernel_size)
  else s

/-- Line 111..112: free the params block when its pointer is nonzero. -/
def unloadFreeParams (s : S) : S :=
  if s.params ≠ 0 then
    efiFreePages s s.params (BYTES_TO_PAGES 16384)
  else s

/-- grub_linuxefi_unload, lines 98..115: clear loaded, then free each of
the four resources whose pointer is nonzero, in source order. -/
def grub_linuxefi_unload (s : S) : S :=
  unloadFreeParams (unloadFreeKernel (unloadFreeCmdline (unloadFreeInitrd
    { s with loaded := false })))

/-- One initrd source file as the module sees it: whether grub_file_open
succeeds, the size grub_file_size reports, and the bytes grub_file_read
actually delivers (a short read is a read failure). -/
structure IFile where
  openOk : Bool
  size : Nat
  data : List Nat
deriving DecidableEq, Repr

/-- Environment of one grub_cmd_initrd invocation: the argument files and
the outcomes of the external grub_zalloc and of the firmware page
allocation for the initrd buffer. -/
structure InitrdEnv where
  files : List IFile
  zallocOk : Bool
  allocOk : Bool
deriving Repr

/-- The first loop of grub_cmd_initrd, lines 142..150: open each file in
turn, accumulating the 4-byte aligned sizes; stops at the first open
failure.  Returns the accumulated size and whether every open succeeded. -/
def openLoop : List IFile → Nat × Bool
  | [] => (0, true)
  | f :: rest =>
    if f.openOk then
      let r := openLoop rest
      (ALIGN_UP f.size 4 + r.1, r.2)
    else (0, false)

/-- The second loop of grub_cmd_initrd, lines 168..182: read each file in
full at the cursor, measure the bytes read, zero-fill the alignment
padding and advance.  A short read raises the read error and stops. -/
def initrdReadLoop (s : S) : List IFile → S
  | [] => s
  | f :: rest =>
    if f.data.length ≠ f.size then
      { s with errno := ErrNo.fileReadError, errmsg := "premature end of file" }
    else
      let s := { s with
        initrdData := s.initrdData ++ f.data ++ List.replicate (ALIGN_UP_OVERHEAD f.size 4) 0,
        trace := s.trace ++ [Event.measure "UEFI Linux initrd"] }
      initrdReadLoop s rest

/-- Lines 186..197: the common tail of grub_cmd_initrd (the files are
closed and their array freed, which the model does not track); the
initrd buffer is released when the pointer is nonzero and an error is
pending, with the page count recomputed from the accumulated size. -/
def initrdEpilogue (size : Nat) (s : S) : S :=
  if s.initrd_mem ≠ 0 ∧ s.errno ≠ ErrNo.none then
    efiFreePages s s.initrd_mem (BYTES_TO_PAGES size)
  else s

/-- grub_cmd_initrd up to the fail label, lines 117..184: argument and
precondition checks, the open loop, the buffer allocation (the pointer is
overwritten with the allocation result, NULL on failure), the write of
the ramdisk address and size into the params block, the read loop, and on
success the final ramdisk_size store.  Returns the state at the fail
label together with the accumulated size the label recomputes the page
count from. -/
def initrdBody (e : InitrdEnv) (s : S) : S × Nat :=
  if e.files.length = 0 then
    ({ s with errno := ErrNo.badArgument, errmsg := "filename expected" }, 0)
  else if s.loaded = false then
    ({ s with errno := ErrNo.badArgument, errmsg := "you need to load the kernel first" }, 0)
  else if e.zallocOk = false then
    ({ s with errno := ErrNo.outOfMemory, errmsg := "out of memory" }, 0)
  else
    let op := openLoop e.files
    let size := op.1
    if op.2 = false then
      ({ s with errno := ErrNo.fileOpenError, errmsg := "failed to open file" }, size)
    else
      let a := allocAddr s e.allocOk
      let s := { efiAllocatePages s Kind.initrd (BYTES_TO_PAGES size) e.allocOk
                 with initrd_mem := a }
      if a = 0 then
        ({ s with errno := ErrNo.outOfMemory, errmsg := "can't allocate initrd" }, size)
      else
        let s := { s with
          paramsBlk := { s.paramsBlk with
            ramdisk_size := size % 4294967296,
            ramdisk_image := a % 4294967296 },
          initrdData := [] }
        let s := initrdReadLoop s e.files
        if s.errno ≠ ErrNo.none then (s, size)
        else
          ({ s with paramsBlk := { s.paramsBlk with ramdisk_size := size % 4294967296 } }, size)

/-- grub_cmd_initrd, lines 117..198: the body followed by the common
tail. -/
def grub_cmd_initrd (e : InitrdEnv) (s : S) : S :=
  let r := initrdBody e s
  initrdEpilogue r.2 r.1

/-- Environment of one grub_cmd_linux invocation: the argument count, the
kernel file (header fields and byte length), and the outcomes of the
external collaborators at each call site: grub_file_open, grub_malloc,
grub_file_read, the shim and secure boot queries, and the firmware page
allocator at its four call sites.  uninitLh is the garbage initial value
of the stack variable lh, read at the cleanup label by the paths that
fail before lh is filled from the file. -/
structure LoadEnv where
  argc : Nat
  openOk : Bool
  filelen : Nat
  readOk : Bool
  mallocOk : Bool
  shim : ShimEnv
  hdr : KHdr
  paramsAllocOk : Bool
  cmdlineAllocOk : Bool
  kernelPrefOk : Bool
  kernelMaxOk : Bool
  uninitLh : KHdr
deriving Repr

/-- Lines 337..338: at the cleanup label, free the transient kernel file
buffer when its pointer is still set.  The source does not clear the
pointer after the early free on the signature path, so that path reaches
this free with the pointer still set. -/
def noteKfree (hasKernelBuf : Bool) (s : S) : S :=
  if hasKernelBuf then { s with trace := s.trace ++ [Event.kfree] } else s

/-- Lines 340..344: on a pending error, clear the loaded flag (and drop
the module reference, which the model does not track). -/
def resetLoadedOnErr (s : S) : S :=
  if s.errno ≠ ErrNo.none then { s with loaded := false } else s

/-- Lines 348..349: free the command line buffer when its pointer is
nonzero and the module is not loaded, with the page count recomputed
from the cmdline_size field of lh as it is at the label. -/
def failFreeCmdline (lh : KHdr) (s : S) : S :=
  if s.linux_cmdline ≠ 0 ∧ s.loaded = false then
    efiFreePages s s.linux_cmdline (BYTES_TO_PAGES (lh.cmdline_size + 1))
  else s

/-- Lines 351..352: free the kernel region when its pointer is nonzero
and the module is not loaded, with the page count computed from the
static kernel_size. -/
def failFreeKernel (s : S) : S :=
  if s.kernel_mem ≠ 0 ∧ s.loaded = false then
    efiFreePages s s.kernel_mem (BYTES_TO_PAGES s.kernel_size)
  else s

/-- Lines 354..355: free the params block when its pointer is nonzero
and the module is not loaded. -/
def failFreeParams (s : S) : S :=
  if s.params ≠ 0 ∧ s.loaded = false then
    efiFreePages s s.params (BYTES_TO_PAGES 16384)
  else s

/-- Lines 332..358: the common tail of grub_cmd_linux, reached both on
success and through every goto fail, in source order. -/
def linuxEpilogue (lh : KHdr) (hasKernelBuf : Bool) (s : S) : S :=
  failFreeParams (failFreeKernel (failFreeCmdline lh
    (resetLoadedOnErr (noteKfree hasKernelBuf s))))

/-- Lines 282..330 of grub_cmd_linux: command line buffer allocation and
command line construction (the text itself is built by external helpers
and is not modelled), the cmd_line_ptr patch, the handover_offset save,
the kernel memory allocation at the preferred address with a below-1GiB
fallback, the payload copy, and on success the loaded flip followed by
the code32_start patch, the header copy into the params block and the
type_of_loader store.  Returns the state at the fail label, the value of
lh there, and whether the kernel buffer pointer is still set (it always
is here). -/
def linuxStage3 (e : LoadEnv) (lh : KHdr) (s : S) : S × KHdr × Bool :=
  let ca := allocAddr s e.cmdlineAllocOk
  let s := { efiAllocatePages s Kind.cmdline (BYTES_TO_PAGES (lh.cmdline_size + 1))
               e.cmdlineAllocOk
             with linux_cmdline := ca }
  if ca = 0 then
    ({ s with errno := ErrNo.outOfMemory, errmsg := "can't allocate cmdline" }, lh, true)
  else
    let lh := { lh with cmd_line_ptr := ca % 4294967296 }
    let s := { s with handover_offset := lh.handover_offset }
    let ka1 := allocAddr s e.kernelPrefOk
    let s := { efiAllocatePages s Kind.kernel (BYTES_TO_PAGES lh.init_size) e.kernelPrefOk
               with kernel_mem := ka1 }
    let ka := if ka1 = 0 then allocAddr s e.kernelMaxOk else ka1
    let s := if ka1 = 0 then
        { efiAllocatePages s Kind.kernel (BYTES_TO_PAGES lh.init_size) e.kernelMaxOk
          with kernel_mem := ka }
      else s
    if ka = 0 then
      ({ s with errno := ErrNo.outOfMemory, errmsg := "can't allocate kernel" }, lh, true)
    else
      let s := { s with loaded := true, trace := s.trace ++ [Event.loadedFlip] }
      let lh := { lh with code32_start := ka % 4294967296 }
      let s := { s with paramsBlk := lh, trace := s.trace ++ [Event.copyHdrToParams] }
      let s := { s with
        paramsBlk := { s.paramsBlk with type_of_loader := 0x21 },
        trace := s.trace ++ [Event.setTypeOfLoader] }
      (s, lh, true)

/-- Lines 246..280 of grub_cmd_linux: params block allocation (the
pointer takes the allocation result, NULL on failure), its zeroing, the
header read into lh, and the four header checks. -/
def linuxStage2 (e : LoadEnv) (s : S) : S × KHdr × Bool :=
  let pa := allocAddr s e.paramsAllocOk
  let s := { efiAllocatePages s Kind.params (BYTES_TO_PAGES 16384) e.paramsAllocOk
             with params := pa }
  if pa = 0 then
    ({ s with errno := ErrNo.outOfMemory, errmsg := "cannot allocate kernel parameters" },
     e.uninitLh, true)
  else
    let s := { s with paramsBlk := zeroHdr }
    let lh := e.hdr
    if lh.boot_flag ≠ 0xaa55 then
      ({ s with errno := ErrNo.badOS, errmsg := "invalid magic number" }, lh, true)
    else if GRUB_LINUX_MAX_SETUP_SECTS < lh.setup_sects then
      ({ s with errno := ErrNo.badOS, errmsg := "too many setup sectors" }, lh, true)
    else if lh.version < 0x020b then
      ({ s with errno := ErrNo.badOS, errmsg := "kernel too old" }, lh, true)
    else if lh.handover_offset = 0 then
      ({ s with errno := ErrNo.badOS, errmsg := "kernel doesn't support EFI handover" }, lh, true)
    else linuxStage3 e lh s

/-- Lines 209..244 of grub_cmd_linux: argument check, file open, buffer
allocation and full read, TPM measurement, signature validation with its
early free of the kernel buffer on failure (the pointer stays set). -/
def linuxBody (e : LoadEnv) (s : S) : S × KHdr × Bool :=
  if e.argc = 0 then
    ({ s with errno := ErrNo.badArgument, errmsg := "filename expected" }, e.uninitLh, false)
  else if e.openOk = false then
    ({ s with errno := ErrNo.fileOpenError, errmsg := "failed to open file" }, e.uninitLh, false)
  else if e.mallocOk = false then
    ({ s with errno := ErrNo.outOfMemory, errmsg := "cannot allocate kernel buffer" },
     e.uninitLh, false)
  else
    let s := { s with trace := s.trace ++ [Event.kmalloc] }
    if e.readOk = false then
      ({ s with errno := ErrNo.fileReadError, errmsg := "Can't read kernel" }, e.uninitLh, true)
    else
      let s := { s with trace := s.trace ++ [Event.measure "UEFI Linux kernel"] }
      let v := grub_linuxefi_secure_validate e.shim
      let s := { s with trace := s.trace ++ [Event.validate v] }
      if v = false then
        ({ s with trace := s.trace ++ [Event.kfree],
                  errno := ErrNo.invalidCommand, errmsg := "invalid signature" },
         e.uninitLh, true)
      else linuxStage2 e s

/-- grub_cmd_linux, lines 200..359: the body followed by the common
tail at the fail label. -/
def grub_cmd_linux (e : LoadEnv) (s : S) : S :=
  let r := linuxBody e s
  linuxEpilogue r.2.1 r.2.2 r.1

/-- One command issued to the module through the dispatcher.  The boot
action transfers control and never returns; up to the transfer it writes
none of the tracked state, so it is modelled as the identity. -/
inductive Op
  | load (e : LoadEnv)
  | initrd (e : InitrdEnv)
  | unload
  | boot

/-- The dispatcher clears the pending error before running a command. -/
def clearErr (s : S) : S := { s with errno := ErrNo.none, errmsg := "" }

/-- One dispatched command. -/
def step (s : S) (op : Op) : S :=
  match op with
  | Op.load e => grub_cmd_linux e (clearErr s)
  | Op.initrd e => grub_cmd_initrd e (clearErr s)
  | Op.unload => grub_linuxefi_unload (clearErr s)
  | Op.boot => s

/-- A sequence of dispatched commands. -/
def run (s : S) (ops : List Op) : S := ops.foldl step s

/-- Addresses of the allocations of one resource kind in a live list. -/
def liveH (h : List Cell) (k : Kind) : List Nat :=
  (h.filter (fun c => c.kind == k)).map Cell.addr

/-- Addresses of the live allocations of one resource kind. -/
def liveA (s : S) (k : Kind) : List Nat := liveH s.heap k

/-- Every pointer variable holds an address the allocator has already
handed out (or NULL): the freshness bound of the model allocator. -/
def ptrBound (s : S) : Prop :=
  s.params ≤ 4096 * s.ctr ∧ s.linux_cmdline ≤ 4096 * s.ctr ∧
  s.kernel_mem ≤ 4096 * s.ctr ∧ s.initrd_mem ≤ 4096 * s.ctr ∧
  (∀ c ∈ s.heap, c.addr ≤ 4096 * s.ctr ∧ c.addr ≠ 0)

/-- Four addresses are pairwise distinct wherever nonzero. -/
def ptrsDistinct4 (p c k i : Nat) : Prop :=
  (p ≠ 0 → c ≠ 0 → p ≠ c) ∧ (p ≠ 0 → k ≠ 0 → p ≠ k) ∧ (p ≠ 0 → i ≠ 0 → p ≠ i) ∧
  (c ≠ 0 → k ≠ 0 → c ≠ k) ∧ (c ≠ 0 → i ≠ 0 → c ≠ i) ∧ (k ≠ 0 → i ≠ 0 → k ≠ i)

/-- The nonzero pointer variables are pairwise distinct (they come from
distinct allocator calls). -/
def ptrsDistinct (s : S) : Prop :=
  ptrsDistinct4 s.params s.linux_cmdline s.kernel_mem s.initrd_mem

/-- Shape of the live allocations while the module is loaded: exactly one
boot parameter block, one command line buffer and one kernel region, each
at the address the corresponding pointer holds, plus at most one initrd
buffer at the initrd pointer. -/
def LoadedShape (s : S) : Prop :=
  s.params ≠ 0 ∧ s.linux_cmdline ≠ 0 ∧ s.kernel_mem ≠ 0 ∧
  liveA s Kind.params = [s.params] ∧
  liveA s Kind.cmdline = [s.linux_cmdline] ∧
  liveA s Kind.kernel = [s.kernel_mem] ∧
  (liveA s Kind.initrd = [] ∨ (s.initrd_mem ≠ 0 ∧ liveA s Kind.initrd = [s.initrd_mem]))

/-- The inductive resource invariant of the state machine. -/
def Inv (s : S) : Prop :=
  ptrBound s ∧ ptrsDistinct s ∧
  (s.loaded = true → LoadedShape s) ∧ (s.loaded = false → s.heap = [])

/-- The claim-level consequence of the invariant: at most one live
allocation of each resource kind, and the loaded flag holds exactly when
the boot parameter block and the kernel region are both live. -/
def AtMostOneEach (s : S) : Prop :=
  (∀ k : Kind, (liveA s k).length ≤ 1) ∧
  (s.loaded = true ↔ (liveA s Kind.params ≠ [] ∧ liveA s Kind.kernel ≠ []))

/-- Dispatch discipline: every kernel load is issued while no firmware
allocation is outstanding, and every initrd load while no initrd buffer
is outstanding. -/
def goodSeqB : S → List Op → Bool
  | _, [] => true
  | s, op :: rest =>
    (match op with
     | Op.load _ => s.heap.isEmpty
     | Op.initrd _ => (liveA s Kind.initrd).isEmpty
     | _ => true) && goodSeqB (step s op) rest

/-- First index of an event satisfying a predicate. -/
def firstIdx (p : Event → Bool) : List Event → Option Nat
  | [] => Option.none
  | e :: t => if p e then Option.some 0 else (firstIdx p t).map (fun n => n + 1)

/-- Recognizer for page allocation events. -/
def isAllocPages : Event → Bool
  | Event.allocPages _ _ _ => true
  | _ => false

/-- The ordering asserted by the temporal claim on the loaded flip: if the
flip appears in a trace, both the header copy and the type_of_loader
store appear strictly before it. -/
def flipOnlyAfterHdrTagB (t : List Event) : Bool :=
  match firstIdx (fun ev => ev == Event.loadedFlip) t with
  | Option.none => true
  | Option.some i =>
    (match firstIdx (fun ev => ev == Event.copyHdrToParams) t with
     | Option.some j => decide (j < i)
     | Option.none => false) &&
    (match firstIdx (fun ev => ev == Event.setTypeOfLoader) t with
     | Option.some j => decide (j < i)
     | Option.none => false)

/-- A load environment that reaches the header checks: plausible file,
successful external calls. -/
def reachesHeaderChecks (e : LoadEnv) : Prop :=
  e.argc ≠ 0 ∧ e.openOk = true ∧ e.mallocOk = true ∧ e.readOk = true ∧
  grub_linuxefi_secure_validate e.shim = true ∧ e.paramsAllocOk = true

/-- A header the validator rejects as bad format for one of the two
reasons named by the claim: wrong boot sector magic, or (passing the
other checks) a zero handover offset. -/
def badFormatHdr (h : KHdr) : Prop :=
  h.boot_flag ≠ 0xaa55 ∨
  (h.boot_flag = 0xaa55 ∧ h.setup_sects ≤ GRUB_LINUX_MAX_SETUP_SECTS ∧
   0x020b ≤ h.version ∧ h.handover_offset = 0)

/-- A well-formed EFI handover kernel header used by the concrete
scenarios: magic 0xAA55, 4 setup sectors, protocol 2.11, handover entry
at 0x1e0, one page of init_size. -/
def goodHdr : KHdr :=
  { boot_flag := 0xaa55, setup_sects := 4, version := 0x020b,
    handover_offset := 0x1e0, pref_address := 0x1000000, init_size := 0x1000,
    cmdline_size := 255, ramdisk_image := 0, ramdisk_size := 0,
    cmd_line_ptr := 0, code32_start := 0, type_of_loader := 0 }

/-- Shim present and verifying successfully, secure boot off. -/
def goodShim : ShimEnv := { shimPresent := true, shimVerify := true, secureBoot := false }

/-- A load request that succeeds end to end. -/
def goodLoadEnv : LoadEnv :=
  { argc := 1, openOk := true, filelen := 0x5000, readOk := true, mallocOk := true,
    shim := goodShim, hdr := goodHdr, paramsAllocOk := true, cmdlineAllocOk := true,
    kernelPrefOk := true, kernelMaxOk := true, uninitLh := zeroHdr }

/-- The same request for an image whose boot sector magic is wrong. -/
def badMagicEnv : LoadEnv :=
  { goodLoadEnv with hdr := { goodHdr with boot_flag := 0x55aa } }

/-- The same request for an image with protocol version 0x0203. -/
def v0203Env : LoadEnv :=
  { goodLoadEnv with hdr := { goodHdr with version := 0x0203 } }

/-- The same request for an image with protocol version 0x0200. -/
def v0200Env : LoadEnv :=
  { goodLoadEnv with hdr := { goodHdr with version := 0x0200 } }

/-- A load request with no arguments at all. -/
def argc0Env : LoadEnv := { goodLoadEnv with argc := 0 }

/-- A load request whose image fails shim verification. -/
def sigFailEnv : LoadEnv :=
  { goodLoadEnv with shim := { shimPresent := true, shimVerify := false, secureBoot := false } }

/-- A load request with the shim absent while secure boot is enforced. -/
def noShimSecureEnv : LoadEnv :=
  { goodLoadEnv with shim := { shimPresent := false, shimVerify := false, secureBoot := true } }

/-- A successful two-file initrd request with sizes 10 and 3. -/
def goodInitrdEnv : InitrdEnv :=
  { files := [ { openOk := true, size := 10, data := [1, 2, 3, 4, 5, 6, 7, 8, 9, 10] },
               { openOk := true, size := 3, data := [11, 12, 13] } ],
    zallocOk := true, allocOk := true }

/-- An initrd request whose single file reads short. -/
def shortReadInitrdEnv : InitrdEnv :=
  { files := [ { openOk := true, size := 10, data := [1, 2, 3, 4, 5] } ],
    zallocOk := true, allocOk := true }

/-- Failure shape of the load body at the fail label: an error is
pending and the loaded flag is unchanged. -/
def BodyFail (s r : S) : Prop := r.errno ≠ ErrNo.none ∧ r.loaded = s.loaded

/-- Success shape of the load body at the fail label: no new error, the
module is loaded, and the trace gained a block ending in the loaded
flip, the header copy and the loader tag, none of which appears
earlier in the block. -/
def BodySucc (s r : S) : Prop :=
  r.errno = s.errno ∧ r.loaded = true ∧
  ∃ p, r.trace = s.trace ++ (p ++ [Event.loadedFlip, Event.copyHdrToParams,
                                   Event.setTypeOfLoader]) ∧
    Event.loadedFlip ∉ p ∧ Event.copyHdrToParams ∉ p ∧ Event.setTypeOfLoader ∉ p

/-- C1: on the unload after a successful load, the claim requires the
KernelMemory free to release the rounded-up init_size it was allocated
with.  Evaluating the module on a successful load of a kernel with
init_size one page followed by the explicit unload: the kernel region is
allocated with 1 page, but its free releases 0 pages, because the free
uses the static kernel_size, which no statement of the module ever
assigns.  (The other three resources are released with their allocation
sizes; the state does end Unloaded.) -/
theorem C1_kernel_free_zero_pages :
    (run S0 [Op.load goodLoadEnv, Op.unload]).trace.count
        (Event.allocPages 12288 1 Kind.kernel) = 1 ∧
    (run S0 [Op.load goodLoadEnv, Op.unload]).trace.count (Event.freePages 12288 0) = 1 ∧
    (run S0 [Op.load goodLoadEnv, Op.unload]).trace.count (Event.freePages 12288 1) = 0 ∧
    BYTES_TO_PAGES goodHdr.init_size = 1 ∧
    (run S0 [Op.load goodLoadEnv, Op.unload]).loaded = false := by decide

/-- C2 counterexample: on a concrete successful load, the loaded flip is
not preceded by the header copy into the params block nor by the
type_of_loader store, refuting the claim that the state flips to Loaded
only after those two steps. -/
theorem C2_counterexample :
    flipOnlyAfterHdrTagB (run S0 [Op.load goodLoadEnv]).trace = false := by decide

/-- C3 counterexample: a loaded module with ramdisk fields 0, then an
initrd load whose only file reads short after the buffer was allocated.
The claim requires the ramdisk fields of the params block to be left
unchanged; instead the failed operation leaves ramdisk_size = 12 and
ramdisk_image = 16384 (the address of the buffer it just released). -/
theorem C3_counterexample :
    (run S0 [Op.load goodLoadEnv]).paramsBlk.ramdisk_size = 0 ∧
    (run S0 [Op.load goodLoadEnv]).paramsBlk.ramdisk_image = 0 ∧
    (run S0 [Op.load goodLoadEnv, Op.initrd shortReadInitrdEnv]).paramsBlk.ramdisk_size = 12 ∧
    (run S0 [Op.load goodLoadEnv, Op.initrd shortReadInitrdEnv]).paramsBlk.ramdisk_image
      = 16384 ∧
    (run S0 [Op.load goodLoadEnv, Op.initrd shortReadInitrdEnv]).errno
      = ErrNo.fileReadError := by decide

/-- C4: a load failing at the magic check allocates the 16 KiB params
block once and releases it on the failure path, ending Unloaded; but the
pointer is not cleared, so the release path of the next failing load (an
argument-less request that allocates nothing) frees the same allocation
a second time, refuting the claim that re-invoking the release path
frees nothing. -/
theorem C4_double_free :
    (run S0 [Op.load badMagicEnv, Op.load argc0Env]).trace.count
        (Event.allocPages 4096 4 Kind.params) = 1 ∧
    (run S0 [Op.load badMagicEnv, Op.load argc0Env]).trace.count
        (Event.freePages 4096 4) = 2 ∧
    (run S0 [Op.load badMagicEnv]).loaded = false ∧
    (run S0 [Op.load badMagicEnv]).heap = [] := by decide

/-- C5 counterexample: the image of the claimed scenario with protocol
version 0x0203 does not load successfully; the module requires version
at least 0x020b and rejects it with the kernel-too-old error. -/
theorem C5_counterexample :
    (run S0 [Op.load v0203Env]).loaded = false ∧
    (run S0 [Op.load v0203Env]).errno = ErrNo.badOS ∧
    (run S0 [Op.load v0203Env]).errmsg = "kernel too old" := by decide

/-- C5 amended: the scenario holds with the minimum handover-capable
protocol version 0x020b: the load succeeds, KernelMemory is allocated
with init_size rounded up to one page and is live afterwards, and the
state is Loaded; with version 0x0200 the load fails with the
kernel-too-old error and zero allocations are outstanding. -/
theorem C5_amended_thm :
    ((run S0 [Op.load goodLoadEnv]).loaded = true ∧
     (run S0 [Op.load goodLoadEnv]).trace.count (Event.allocPages 12288 1 Kind.kernel) = 1 ∧
     BYTES_TO_PAGES goodHdr.init_size = 1 ∧
     (run S0 [Op.load goodLoadEnv]).heap.count
         { addr := 12288, pages := 1, kind := Kind.kernel } = 1) ∧
    ((run S0 [Op.load v0200Env]).errno = ErrNo.badOS ∧
     (run S0 [Op.load v0200Env]).errmsg = "kernel too old" ∧
     (run S0 [Op.load v0200Env]).heap = [] ∧
     (run S0 [Op.load v0200Env]).loaded = false) := by decide

/-- C6 counterexample: a load of an image with wrong boot sector magic
does allocate firmware memory (the 16 KiB params block is allocated
before the header checks), refuting the claim that no memory is
allocated; the failure itself is the bad-format error. -/
theorem C6_counterexample :
    (run S0 [Op.load badMagicEnv]).trace.filter isAllocPages ≠ [] ∧
    (run S0 [Op.load badMagicEnv]).errno = ErrNo.badOS ∧
    (run S0 [Op.load badMagicEnv]).errmsg = "invalid magic number" := by decide

/-- C7: the claim requires the transient buffer holding the raw kernel
file to be freed exactly once per load attempt, including a signature
check failure.  On an image failing shim verification the buffer is
allocated once and freed twice: once in the verification failure branch
and again at the common cleanup label, since the pointer is not cleared. -/
theorem C7_transient_buffer_double_free :
    (run S0 [Op.load sigFailEnv]).trace.count Event.kmalloc = 1 ∧
    (run S0 [Op.load sigFailEnv]).trace.count Event.kfree = 2 := by decide

/-- C10 counterexample: issuing a second kernel-load request while the
first is loaded leaves two boot parameter blocks outstanding (the first
set of allocations is orphaned, not released), refuting the at-most-one
invariant as claimed for arbitrary operation sequences. -/
theorem C10_counterexample :
    (liveA (run S0 [Op.load goodLoadEnv, Op.load goodLoadEnv]) Kind.params).length
      = 2 := by decide

@[simp] theorem efiAllocatePages_loaded (s : S) (k : Kind) (p : Nat) (ok : Bool) :
    (efiAllocatePages s k p ok).loaded = s.loaded := by
  unfold efiAllocatePages; split <;> rfl

@[simp] theorem efiAllocatePages_kernel_mem (s : S) (k : Kind) (p : Nat) (ok : Bool) :
    (efiAllocatePages s k p ok).kernel_mem = s.kernel_mem := by
  unfold efiAllocatePages; split <;> rfl

@[simp] theorem efiAllocatePages_kernel_size (s : S) (k : Kind) (p : Nat) (ok : Bool) :
    (efiAllocatePages s k p ok).kernel_size = s.kernel_size := by
  unfold efiAllocatePages; split <;> rfl

@[simp] theorem efiAllocatePages_initrd_mem (s : S) (k : Kind) (p : Nat) (ok : Bool) :
    (efiAllocatePages s k p ok).initrd_mem = s.initrd_mem := by
  unfold efiAllocatePages; split <;> rfl

@[simp] theorem efiAllocatePages_params (s : S) (k : Kind) (p : Nat) (ok : Bool) :
    (efiAllocatePages s k p ok).params = s.params := by
  unfold efiAllocatePages; split <;> rfl

@[simp] theorem efiAllocatePages_linux_cmdline (s : S) (k : Kind) (p : Nat) (ok : Bool) :
    (efiAllocatePages s k p ok).linux_cmdline = s.linux_cmdline := by
  unfold efiAllocatePages; split <;> rfl

@[simp] theorem efiAllocatePages_handover_offset (s : S) (k : Kind) (p : Nat) (ok : Bool) :
    (efiAllocatePages s k p ok).handover_offset = s.handover_offset := by
  unfold efiAllocatePages; split <;> rfl

@[simp] theorem efiAllocatePages_paramsBlk (s : S) (k : Kind) (p : Nat) (ok : Bool) :
    (efiAllocatePages s k p ok).paramsBlk = s.paramsBlk := by
  unfold efiAllocatePages; split <;> rfl

@[simp] theorem efiAllocatePages_initrdData (s : S) (k : Kind) (p : Nat) (ok : Bool) :
    (efiAllocatePages s k p ok).initrdData = s.initrdData := by
  unfold efiAllocatePages; split <;> rfl

@[simp] theorem efiAllocatePages_errno (s : S) (k : Kind) (p : Nat) (ok : Bool) :
    (efiAllocatePages s k p ok).errno = s.errno := by
  unfold efiAllocatePages; split <;> rfl

@[simp] theorem efiAllocatePages_errmsg (s : S) (k : Kind) (p : Nat) (ok : Bool) :
    (efiAllocatePages s k p ok).errmsg = s.errmsg := by
  unfold efiAllocatePages; split <;> rfl

@[simp] theorem efiAllocatePages_false (s : S) (k : Kind) (p : Nat) :
    efiAllocatePages s k p false = s := rfl

@[simp] theorem efiAllocatePages_ctr_true (s : S) (k : Kind) (p : Nat) :
    (efiAllocatePages s k p true).ctr = s.ctr + 1 := rfl

@[simp] theorem efiAllocatePages_heap_true (s : S) (k : Kind) (p : Nat) :
    (efiAllocatePages s k p true).heap
      = { addr := pageAddr s.ctr, pages := p, kind := k } :: s.heap := rfl

@[simp] theorem efiAllocatePages_trace_true (s : S) (k : Kind) (p : Nat) :
    (efiAllocatePages s k p true).trace
      = s.trace ++ [Event.allocPages (pageAddr s.ctr) p k] := rfl

@[simp] theorem efiFreePages_loaded (s : S) (a p : Nat) :
    (efiFreePages s a p).loaded = s.loaded := rfl

@[simp] theorem efiFreePages_kernel_mem (s : S) (a p : Nat) :
    (efiFreePages s a p).kernel_mem = s.kernel_mem := rfl

@[simp] theorem efiFreePages_kernel_size (s : S) (a p : Nat) :
    (efiFreePages s a p).kernel_size = s.kernel_size := rfl

@[simp] theorem efiFreePages_initrd_mem (s : S) (a p : Nat) :
    (efiFreePages s a p).initrd_mem = s.initrd_mem := rfl

@[simp] theorem efiFreePages_params (s : S) (a p : Nat) :
    (efiFreePages s a p).params = s.params := rfl

@[simp] theorem efiFreePages_linux_cmdline (s : S) (a p : Nat) :
    (efiFreePages s a p).linux_cmdline = s.linux_cmdline := rfl

@[simp] theorem efiFreePages_handover_offset (s : S) (a p : Nat) :
    (efiFreePages s a p).handover_offset = s.handover_offset := rfl

@[simp] theorem efiFreePages_paramsBlk (s : S) (a p : Nat) :
    (efiFreePages s a p).paramsBlk = s.paramsBlk := rfl

@[simp] theorem efiFreePages_initrdData (s : S) (a p : Nat) :
    (efiFreePages s a p).initrdData = s.initrdData := rfl

@[simp] theorem efiFreePages_ctr (s : S) (a p : Nat) :
    (efiFreePages s a p).ctr = s.ctr := rfl

@[simp] theorem efiFreePages_errno (s : S) (a p : Nat) :
    (efiFreePages s a p).errno = s.errno := rfl

@[simp] theorem efiFreePages_errmsg (s : S) (a p : Nat) :
    (efiFreePages s a p).errmsg = s.errmsg := rfl

@[simp] theorem efiFreePages_heap (s : S) (a p : Nat) :
    (efiFreePages s a p).heap = s.heap.filter (fun c => c.addr != a) := rfl

@[simp] theorem efiFreePages_trace (s : S) (a p : Nat) :
    (efiFreePages s a p).trace = s.trace ++ [Event.freePages a p] := rfl

@[simp] theorem allocAddr_true (s : S) : allocAddr s true = pageAddr s.ctr := rfl

@[simp] theorem allocAddr_false (s : S) : allocAddr s false = 0 := rfl

@[simp] theorem pageAddr_ne_zero (n : Nat) : pageAddr n ≠ 0 := by simp [pageAddr]

@[simp] theorem noteKfree_loaded (b : Bool) (s : S) :
    (noteKfree b s).loaded = s.loaded := by
  unfold noteKfree; split <;> rfl

@[simp] theorem noteKfree_kernel_mem (b : Bool) (s : S) :
    (noteKfree b s).kernel_mem = s.kernel_mem := by
  unfold noteKfree; split <;> rfl

@[simp] theorem noteKfree_kernel_size (b : Bool) (s : S) :
    (noteKfree b s).kernel_size = s.kernel_size := by
  unfold noteKfree; split <;> rfl

@[simp] theorem noteKfree_initrd_mem (b : Bool) (s : S) :
    (noteKfree b s).initrd_mem = s.initrd_mem := by
  unfold noteKfree; split <;> rfl

@[simp] theorem noteKfree_params (b : Bool) (s : S) :
    (noteKfree b s).params = s.params := by
  unfold noteKfree; split <;> rfl

@[simp] theorem noteKfree_linux_cmdline (b : Bool) (s : S) :
    (noteKfree b s).linux_cmdline = s.linux_cmdline := by
  unfold noteKfree; split <;> rfl

@[simp] theorem noteKfree_handover_offset (b : Bool) (s : S) :
    (noteKfree b s).handover_offset = s.handover_offset := by
  unfold noteKfree; split <;> rfl

@[simp] theorem noteKfree_paramsBlk (b : Bool) (s : S) :
    (noteKfree b s).paramsBlk = s.paramsBlk := by
  unfold noteKfree; split <;> rfl

@[simp] theorem noteKfree_initrdData (b : Bool) (s : S) :
    (noteKfree b s).initrdData = s.initrdData := by
  unfold noteKfree; split <;> rfl

@[simp] theorem noteKfree_ctr (b : Bool) (s : S) :
    (noteKfree b s).ctr = s.ctr := by
  unfold noteKfree; split <;> rfl

@[simp] theorem noteKfree_heap (b : Bool) (s : S) :
    (noteKfree b s).heap = s.heap := by
  unfold noteKfree; split <;> rfl

@[simp] theorem noteKfree_errno (b : Bool) (s : S) :
    (noteKfree b s).errno = s.errno := by
  unfold noteKfree; split <;> rfl

@[simp] theorem noteKfree_errmsg (b : Bool) (s : S) :
    (noteKfree b s).errmsg = s.errmsg := by
  unfold noteKfree; split <;> rfl

theorem noteKfree_trace (b : Bool) (s : S) :
    (noteKfree b s).trace = s.trace ++ (if b then [Event.kfree] else []) := by
  unfold noteKfree; split <;> simp

@[simp] theorem resetLoadedOnErr_kernel_mem (s : S) :
    (resetLoadedOnErr s).kernel_mem = s.kernel_mem := by
  unfold resetLoadedOnErr; split <;> rfl

@[simp] theorem resetLoadedOnErr_kernel_size (s : S) :
    (resetLoadedOnErr s).kernel_size = s.kernel_size := by
  unfold resetLoadedOnErr; split <;> rfl

@[simp] theorem resetLoadedOnErr_initrd_mem (s : S) :
    (resetLoadedOnErr s).initrd_mem = s.initrd_mem := by
  unfold resetLoadedOnErr; split <;> rfl

@[simp] theorem resetLoadedOnErr_params (s : S) :
    (resetLoadedOnErr s).params = s.params := by
  unfold resetLoadedOnErr; split <;> rfl

@[simp] theorem resetLoadedOnErr_linux_cmdline (s : S) :
    (resetLoadedOnErr s).linux_cmdline = s.linux_cmdline := by
  unfold resetLoadedOnErr; split <;> rfl

@[simp] theorem resetLoadedOnErr_handover_offset (s : S) :
    (resetLoadedOnErr s).handover_offset = s.handover_offset := by
  unfold resetLoadedOnErr; split <;> rfl

@[simp] theorem resetLoadedOnErr_paramsBlk (s : S) :
    (resetLoadedOnErr s).paramsBlk = s.paramsBlk := by
  unfold resetLoadedOnErr; split <;> rfl

@[simp] theorem resetLoadedOnErr_initrdData (s : S) :
    (resetLoadedOnErr s).initrdData = s.initrdData := by
  unfold resetLoadedOnErr; split <;> rfl

@[simp] theorem resetLoadedOnErr_ctr (s : S) :
    (resetLoadedOnErr s).ctr = s.ctr := by
  unfold resetLoadedOnErr; split <;> rfl

@[simp] theorem resetLoadedOnErr_heap (s : S) :
    (resetLoadedOnErr s).heap = s.heap := by
  unfold resetLoadedOnErr; split <;> rfl

@[simp] theorem resetLoadedOnErr_trace (s : S) :
    (resetLoadedOnErr s).trace = s.trace := by
  unfold resetLoadedOnErr; split <;> rfl

@[simp] theorem resetLoadedOnErr_errno (s : S) :
    (resetLoadedOnErr s).errno = s.errno := by
  unfold resetLoadedOnErr; split <;> rfl

@[simp] theorem resetLoadedOnErr_errmsg (s : S) :
    (resetLoadedOnErr s).errmsg = s.errmsg := by
  unfold resetLoadedOnErr; split <;> rfl

theorem resetLoadedOnErr_loaded_err (s : S) (h : s.errno ≠ ErrNo.none) :
    (resetLoadedOnErr s).loaded = false := by
  unfold resetLoadedOnErr; rw [if_pos h]

theorem resetLoadedOnErr_loaded_ok (s : S) (h : s.errno = ErrNo.none) :
    (resetLoadedOnErr s).loaded = s.loaded := by
  unfold resetLoadedOnErr; rw [if_neg (by simp [h])]

@[simp] theorem failFreeCmdline_loaded (lh : KHdr) (s : S) :
    (failFreeCmdline lh s).loaded = s.loaded := by
  unfold failFreeCmdline; split <;> rfl

@[simp] theorem failFreeCmdline_kernel_mem (lh : KHdr) (s : S) :
    (failFreeCmdline lh s).kernel_mem = s.kernel_mem := by
  unfold failFreeCmdline; split <;> rfl

@[simp] theorem failFreeCmdline_kernel_size (lh : KHdr) (s : S) :
    (failFreeCmdline lh s).kernel_size = s.kernel_size := by
  unfold failFreeCmdline; split <;> rfl

@[simp] theorem failFreeCmdline_initrd_mem (lh : KHdr) (s : S) :
    (failFreeCmdline lh s).initrd_mem = s.initrd_mem := by
  unfold failFreeCmdline; split <;> rfl

@[simp] theorem failFreeCmdline_params (lh : KHdr) (s : S) :
    (failFreeCmdline lh s).params = s.params := by
  unfold failFreeCmdline; split <;> rfl

@[simp] theorem failFreeCmdline_linux_cmdline (lh : KHdr) (s : S) :
    (failFreeCmdline lh s).linux_cmdline = s.linux_cmdline := by
  unfold failFreeCmdline; split <;> rfl

@[simp] theorem failFreeCmdline_handover_offset (lh : KHdr) (s : S) :
    (failFreeCmdline lh s).handover_offset = s.handover_offset := by
  unfold failFreeCmdline; split <;> rfl

@[simp] theorem failFreeCmdline_paramsBlk (lh : KHdr) (s : S) :
    (failFreeCmdline lh s).paramsBlk = s.paramsBlk := by
  unfold failFreeCmdline; split <;> rfl

@[simp] theorem failFreeCmdline_initrdData (lh : KHdr) (s : S) :
    (failFreeCmdline lh s).initrdData = s.initrdData := by
  unfold failFreeCmdline; split <;> rfl

@[simp] theorem failFreeCmdline_ctr (lh : KHdr) (s : S) :
    (failFreeCmdline lh s).ctr = s.ctr := by
  unfold failFreeCmdline; split <;> rfl

@[simp] theorem failFreeCmdline_errno (lh : KHdr) (s : S) :
    (failFreeCmdline lh s).errno = s.errno := by
  unfold failFreeCmdline; split <;> rfl

@[simp] theorem failFreeCmdline_errmsg (lh : KHdr) (s : S) :
    (failFreeCmdline lh s).errmsg = s.errmsg := by
  unfold failFreeCmdline; split <;> rfl

@[simp] theorem failFreeKernel_loaded (s : S) :
    (failFreeKernel s).loaded = s.loaded := by
  unfold failFreeKernel; split <;> rfl

@[simp] theorem failFreeKernel_kernel_mem (s : S) :
    (failFreeKernel s).kernel_mem = s.kernel_mem := by
  unfold failFreeKernel; split <;> rfl

@[simp] theorem failFreeKernel_kernel_size (s : S) :
    (failFreeKernel s).kernel_size = s.kernel_size := by
  unfold failFreeKernel; split <;> rfl

@[simp] theorem failFreeKernel_initrd_mem (s : S) :
    (failFreeKernel s).initrd_mem = s.initrd_mem := by
  unfold failFreeKernel; split <;> rfl

@[simp] theorem failFreeKernel_params (s : S) :
    (failFreeKernel s).params = s.params := by
  unfold failFreeKernel; split <;> rfl

@[simp] theorem failFreeKernel_linux_cmdline (s : S) :
    (failFreeKernel s).linux_cmdline = s.linux_cmdline := by
  unfold failFreeKernel; split <;> rfl

@[simp] theorem failFreeKernel_handover_offset (s : S) :
    (failFreeKernel s).handover_offset = s.handover_offset := by
  unfold failFreeKernel; split <;> rfl

@[simp] theorem failFreeKernel_paramsBlk (s : S) :
    (failFreeKernel s).paramsBlk = s.paramsBlk := by
  unfold failFreeKernel; split <;> rfl

@[simp] theorem failFreeKernel_initrdData (s : S) :
    (failFreeKernel s).initrdData = s.initrdData := by
  unfold failFreeKernel; split <;> rfl

@[simp] theorem failFreeKernel_ctr (s : S) :
    (failFreeKernel s).ctr = s.ctr := by
  unfold failFreeKernel; split <;> rfl

@[simp] theorem failFreeKernel_errno (s : S) :
    (failFreeKernel s).errno = s.errno := by
  unfold failFreeKernel; split <;> rfl

@[simp] theorem failFreeKernel_errmsg (s : S) :
    (failFreeKernel s).errmsg = s.errmsg := by
  unfold failFreeKernel; split <;> rfl

@[simp] theorem failFreeParams_loaded (s : S) :
    (failFreeParams s).loaded = s.loaded := by
  unfold failFreeParams; split <;> rfl

@[simp] theorem failFreeParams_kernel_mem (s : S) :
    (failFreeParams s).kernel_mem = s.kernel_mem := by
  unfold failFreeParams; split <;> rfl

@[simp] theorem failFreeParams_kernel_size (s : S) :
    (failFreeParams s).kernel_size = s.kernel_size := by
  unfold failFreeParams; split <;> rfl

@[simp] theorem failFreeParams_initrd_mem (s : S) :
    (failFreeParams s).initrd_mem = s.initrd_mem := by
  unfold failFreeParams; split <;> rfl

@[simp] theorem failFreeParams_params (s : S) :
    (failFreeParams s).params = s.params := by
  unfold failFreeParams; split <;> rfl

@[simp] theorem failFreeParams_linux_cmdline (s : S) :
    (failFreeParams s).linux_cmdline = s.linux_cmdline := by
  unfold failFreeParams; split <;> rfl

@[simp] theorem failFreeParams_handover_offset (s : S) :
    (failFreeParams s).handover_offset = s.handover_offset := by
  unfold failFreeParams; split <;> rfl

@[simp] theorem failFreeParams_paramsBlk (s : S) :
    (failFreeParams s).paramsBlk = s.paramsBlk := by
  unfold failFreeParams; split <;> rfl

@[simp] theorem failFreeParams_initrdData (s : S) :
    (failFreeParams s).initrdData = s.initrdData := by
  unfold failFreeParams; split <;> rfl

@[simp] theorem failFreeParams_ctr (s : S) :
    (failFreeParams s).ctr = s.ctr := by
  unfold failFreeParams; split <;> rfl

@[simp] theorem failFreeParams_errno (s : S) :
    (failFreeParams s).errno = s.errno := by
  unfold failFreeParams; split <;> rfl

@[simp] theorem failFreeParams_errmsg (s : S) :
    (failFreeParams s).errmsg = s.errmsg := by
  unfold failFreeParams; split <;> rfl

@[simp] theorem unloadFreeInitrd_loaded (s : S) :
    (unloadFreeInitrd s).loaded = s.loaded := by
  unfold unloadFreeInitrd; split <;> rfl

@[simp] theorem unloadFreeInitrd_kernel_mem (s : S) :
    (unloadFreeInitrd s).kernel_mem = s.kernel_mem := by
  unfold unloadFreeInitrd; split <;> rfl

@[simp] theorem unloadFreeInitrd_kernel_size (s : S) :
    (unloadFreeInitrd s).kernel_size = s.kernel_size := by
  unfold unloadFreeInitrd; split <;> rfl

@[simp] theorem unloadFreeInitrd_initrd_mem (s : S) :
    (unloadFreeInitrd s).initrd_mem = s.initrd_mem := by
  unfold unloadFreeInitrd; split <;> rfl

@[simp] theorem unloadFreeInitrd_params (s : S) :
    (unloadFreeInitrd s).params = s.params := by
  unfold unloadFreeInitrd; split <;> rfl

@[simp] theorem unloadFreeInitrd_linux_cmdline (s : S) :
    (unloadFreeInitrd s).linux_cmdline = s.linux_cmdline := by
  unfold unloadFreeInitrd; split <;> rfl

@[simp] theorem unloadFreeInitrd_handover_offset (s : S) :
    (unloadFreeInitrd s).handover_offset = s.handover_offset := by
  unfold unloadFreeInitrd; split <;> rfl

@[simp] theorem unloadFreeInitrd_paramsBlk (s : S) :
    (unloadFreeInitrd s).paramsBlk = s.paramsBlk := by
  unfold unloadFreeInitrd; split <;> rfl

@[simp] theorem unloadFreeInitrd_initrdData (s : S) :
    (unloadFreeInitrd s).initrdData = s.initrdData := by
  unfold unloadFreeInitrd; split <;> rfl

@[simp] theorem unloadFreeInitrd_ctr (s : S) :
    (unloadFreeInitrd s).ctr = s.ctr := by
  unfold unloadFreeInitrd; split <;> rfl

@[simp] theorem unloadFreeInitrd_errno (s : S) :
    (unloadFreeInitrd s).errno = s.errno := by
  unfold unloadFreeInitrd; split <;> rfl

@[simp] theorem unloadFreeInitrd_errmsg (s : S) :
    (unloadFreeInitrd s).errmsg = s.errmsg := by
  unfold unloadFreeInitrd; split <;> rfl

@[simp] theorem unloadFreeCmdline_loaded (s : S) :
    (unloadFreeCmdline s).loaded = s.loaded := by
  unfold unloadFreeCmdline; split <;> rfl

@[simp] theorem unloadFreeCmdline_kernel_mem (s : S) :
    (unloadFreeCmdline s).kernel_mem = s.kernel_mem := by
  unfold unloadFreeCmdline; split <;> rfl

@[simp] theorem unloadFreeCmdline_kernel_size (s : S) :
    (unloadFreeCmdline s).kernel_size = s.kernel_size := by
  unfold unloadFreeCmdline; split <;> rfl

@[simp] theorem unloadFreeCmdline_initrd_mem (s : S) :
    (unloadFreeCmdline s).initrd_mem = s.initrd_mem := by
  unfold unloadFreeCmdline; split <;> rfl

@[simp] theorem unloadFreeCmdline_params (s : S) :
    (unloadFreeCmdline s).params = s.params := by
  unfold unloadFreeCmdline; split <;> rfl

@[simp] theorem unloadFreeCmdline_linux_cmdline (s : S) :
    (unloadFreeCmdline s).linux_cmdline = s.linux_cmdline := by
  unfold unloadFreeCmdline; split <;> rfl

@[simp] theorem unloadFreeCmdline_handover_offset (s : S) :
    (unloadFreeCmdline s).handover_offset = s.handover_offset := by
  unfold unloadFreeCmdline; split <;> rfl

@[simp] theorem unloadFreeCmdline_paramsBlk (s : S) :
    (unloadFreeCmdline s).paramsBlk = s.paramsBlk := by
  unfold unloadFreeCmdline; split <;> rfl

@[simp] theorem unloadFreeCmdline_initrdData (s : S) :
    (unloadFreeCmdline s).initrdData = s.initrdData := by
  unfold unloadFreeCmdline; split <;> rfl

@[simp] theorem unloadFreeCmdline_ctr (s : S) :
    (unloadFreeCmdline s).ctr = s.ctr := by
  unfold unloadFreeCmdline; split <;> rfl

@[simp] theorem unloadFreeCmdline_errno (s : S) :
    (unloadFreeCmdline s).errno = s.errno := by
  unfold unloadFreeCmdline; split <;> rfl

@[simp] theorem unloadFreeCmdline_errmsg (s : S) :
    (unloadFreeCmdline s).errmsg = s.errmsg := by
  unfold unloadFreeCmdline; split <;> rfl

@[simp] theorem unloadFreeKernel_loaded (s : S) :
    (unloadFreeKernel s).loaded = s.loaded := by
  unfold unloadFreeKernel; split <;> rfl

@[simp] theorem unloadFreeKernel_kernel_mem (s : S) :
    (unloadFreeKernel s).kernel_mem = s.kernel_mem := by
  unfold unloadFreeKernel; split <;> rfl

@[simp] theorem unloadFreeKernel_kernel_size (s : S) :
    (unloadFreeKernel s).kernel_size = s.kernel_size := by
  unfold unloadFreeKernel; split <;> rfl

@[simp] theorem unloadFreeKernel_initrd_mem (s : S) :
    (unloadFreeKernel s).initrd_mem = s.initrd_mem := by
  unfold unloadFreeKernel; split <;> rfl

@[simp] theorem unloadFreeKernel_params (s : S) :
    (unloadFreeKernel s).params = s.params := by
  unfold unloadFreeKernel; split <;> rfl

@[simp] theorem unloadFreeKernel_linux_cmdline (s : S) :
    (unloadFreeKernel s).linux_cmdline = s.linux_cmdline := by
  unfold unloadFreeKernel; split <;> rfl

@[simp] theorem unloadFreeKernel_handover_offset (s : S) :
    (unloadFreeKernel s).handover_offset = s.handover_offset := by
  unfold unloadFreeKernel; split <;> rfl

@[simp] theorem unloadFreeKernel_paramsBlk (s : S) :
    (unloadFreeKernel s).paramsBlk = s.paramsBlk := by
  unfold unloadFreeKernel; split <;> rfl

@[simp] theorem unloadFreeKernel_initrdData (s : S) :
    (unloadFreeKernel s).initrdData = s.initrdData := by
  unfold unloadFreeKernel; split <;> rfl

@[simp] theorem unloadFreeKernel_ctr (s : S) :
    (unloadFreeKernel s).ctr = s.ctr := by
  unfold unloadFreeKernel; split <;> rfl

@[simp] theorem unloadFreeKernel_errno (s : S) :
    (unloadFreeKernel s).errno = s.errno := by
  unfold unloadFreeKernel; split <;> rfl

@[simp] theorem unloadFreeKernel_errmsg (s : S) :
    (unloadFreeKernel s).errmsg = s.errmsg := by
  unfold unloadFreeKernel; split <;> rfl

@[simp] theorem unloadFreeParams_loaded (s : S) :
    (unloadFreeParams s).loaded = s.loaded := by
  unfold unloadFreeParams; split <;> rfl

@[simp] theorem unloadFreeParams_kernel_mem (s : S) :
    (unloadFreeParams s).kernel_mem = s.kernel_mem := by
  unfold unloadFreeParams; split <;> rfl

@[simp] theorem unloadFreeParams_kernel_size (s : S) :
    (unloadFreeParams s).kernel_size = s.kernel_size := by
  unfold unloadFreeParams; split <;> rfl

@[simp] theorem unloadFreeParams_initrd_mem (s : S) :
    (unloadFreeParams s).initrd_mem = s.initrd_mem := by
  unfold unloadFreeParams; split <;> rfl

@[simp] theorem unloadFreeParams_params (s : S) :
    (unloadFreeParams s).params = s.params := by
  unfold unloadFreeParams; split <;> rfl

@[simp] theorem unloadFreeParams_linux_cmdline (s : S) :
    (unloadFreeParams s).linux_cmdline = s.linux_cmdline := by
  unfold unloadFreeParams; split <;> rfl

@[simp] theorem unloadFreeParams_handover_offset (s : S) :
    (unloadFreeParams s).handover_offset = s.handover_offset := by
  unfold unloadFreeParams; split <;> rfl

@[simp] theorem unloadFreeParams_paramsBlk (s : S) :
    (unloadFreeParams s).paramsBlk = s.paramsBlk := by
  unfold unloadFreeParams; split <;> rfl

@[simp] theorem unloadFreeParams_initrdData (s : S) :
    (unloadFreeParams s).initrdData = s.initrdData := by
  unfold unloadFreeParams; split <;> rfl

@[simp] theorem unloadFreeParams_ctr (s : S) :
    (unloadFreeParams s).ctr = s.ctr := by
  unfold unloadFreeParams; split <;> rfl

@[simp] theorem unloadFreeParams_errno (s : S) :
    (unloadFreeParams s).errno = s.errno := by
  unfold unloadFreeParams; split <;> rfl

@[simp] theorem unloadFreeParams_errmsg (s : S) :
    (unloadFreeParams s).errmsg = s.errmsg := by
  unfold unloadFreeParams; split <;> rfl

theorem mem_failFreeCmdline_heap (lh : KHdr) (s : S) (c : Cell) :
    c ∈ (failFreeCmdline lh s).heap ↔
      c ∈ s.heap ∧ ((s.linux_cmdline ≠ 0 ∧ s.loaded = false) → c.addr ≠ s.linux_cmdline) := by
  unfold failFreeCmdline
  split <;> simp_all [List.mem_filter]

theorem mem_failFreeKernel_heap (s : S) (c : Cell) :
    c ∈ (failFreeKernel s).heap ↔
      c ∈ s.heap ∧ ((s.kernel_mem ≠ 0 ∧ s.loaded = false) → c.addr ≠ s.kernel_mem) := by
  unfold failFreeKernel
  split <;> simp_all [List.mem_filter]

theorem mem_failFreeParams_heap (s : S) (c : Cell) :
    c ∈ (failFreeParams s).heap ↔
      c ∈ s.heap ∧ ((s.params ≠ 0 ∧ s.loaded = false) → c.addr ≠ s.params) := by
  unfold failFreeParams
  split <;> simp_all [List.mem_filter]

theorem failFreeCmdline_trace (lh : KHdr) (s : S) :
    (failFreeCmdline lh s).trace = s.trace ++
      (if s.linux_cmdline ≠ 0 ∧ s.loaded = false then
        [Event.freePages s.linux_cmdline (BYTES_TO_PAGES (lh.cmdline_size + 1))] else []) := by
  unfold failFreeCmdline; split <;> simp

theorem failFreeKernel_trace (s : S) :
    (failFreeKernel s).trace = s.trace ++
      (if s.kernel_mem ≠ 0 ∧ s.loaded = false then
        [Event.freePages s.kernel_mem (BYTES_TO_PAGES s.kernel_size)] else []) := by
  unfold failFreeKernel; split <;> simp

theorem failFreeParams_trace (s : S) :
    (failFreeParams s).trace = s.trace ++
      (if s.params ≠ 0 ∧ s.loaded = false then
        [Event.freePages s.params (BYTES_TO_PAGES 16384)] else []) := by
  unfold failFreeParams; split <;> simp

@[simp] theorem filter_alloc_if_kfree (c : Prop) [Decidable c] :
    (if c then [Event.kfree] else []).filter isAllocPages = [] := by
  split <;> simp [isAllocPages]

@[simp] theorem filter_alloc_if_free (c : Prop) [Decidable c] (a p : Nat) :
    (if c then [Event.freePages a p] else []).filter isAllocPages = [] := by
  split <;> simp [isAllocPages]

theorem epi_errno (lh : KHdr) (b : Bool) (s : S) :
    (linuxEpilogue lh b s).errno = s.errno := by
  simp [linuxEpilogue]

theorem epi_errmsg (lh : KHdr) (b : Bool) (s : S) :
    (linuxEpilogue lh b s).errmsg = s.errmsg := by
  simp [linuxEpilogue]

theorem epi_params (lh : KHdr) (b : Bool) (s : S) :
    (linuxEpilogue lh b s).params = s.params := by
  simp [linuxEpilogue]

theorem epi_linux_cmdline (lh : KHdr) (b : Bool) (s : S) :
    (linuxEpilogue lh b s).linux_cmdline = s.linux_cmdline := by
  simp [linuxEpilogue]

theorem epi_kernel_mem (lh : KHdr) (b : Bool) (s : S) :
    (linuxEpilogue lh b s).kernel_mem = s.kernel_mem := by
  simp [linuxEpilogue]

theorem epi_initrd_mem (lh : KHdr) (b : Bool) (s : S) :
    (linuxEpilogue lh b s).initrd_mem = s.initrd_mem := by
  simp [linuxEpilogue]

theorem epi_kernel_size (lh : KHdr) (b : Bool) (s : S) :
    (linuxEpilogue lh b s).kernel_size = s.kernel_size := by
  simp [linuxEpilogue]

theorem epi_paramsBlk (lh : KHdr) (b : Bool) (s : S) :
    (linuxEpilogue lh b s).paramsBlk = s.paramsBlk := by
  simp [linuxEpilogue]

theorem epi_ctr (lh : KHdr) (b : Bool) (s : S) :
    (linuxEpilogue lh b s).ctr = s.ctr := by
  simp [linuxEpilogue]

theorem epi_initrdData (lh : KHdr) (b : Bool) (s : S) :
    (linuxEpilogue lh b s).initrdData = s.initrdData := by
  simp [linuxEpilogue]

theorem epi_loaded_of_err (lh : KHdr) (b : Bool) (s : S) (h : s.errno ≠ ErrNo.none) :
    (linuxEpilogue lh b s).loaded = false := by
  simp [linuxEpilogue, resetLoadedOnErr_loaded_err, h]

theorem epi_loaded_of_ok (lh : KHdr) (b : Bool) (s : S) (h : s.errno = ErrNo.none) :
    (linuxEpilogue lh b s).loaded = s.loaded := by
  simp [linuxEpilogue, resetLoadedOnErr_loaded_ok, h]

theorem epi_trace_of_loaded (lh : KHdr) (s : S) (h : s.errno = ErrNo.none)
    (h2 : s.loaded = true) :
    (linuxEpilogue lh true s).trace = s.trace ++ [Event.kfree] := by
  simp [linuxEpilogue, failFreeParams_trace, failFreeKernel_trace, failFreeCmdline_trace,
        noteKfree_trace, resetLoadedOnErr_loaded_ok, h, h2]

theorem epi_heap_of_loaded (lh : KHdr) (b : Bool) (s : S) (h : s.errno = ErrNo.none)
    (h2 : s.loaded = true) :
    (linuxEpilogue lh b s).heap = s.heap := by
  unfold linuxEpilogue failFreeParams failFreeKernel failFreeCmdline
  rw [if_neg (by simp [resetLoadedOnErr_loaded_ok, h, h2]),
      if_neg (by simp [resetLoadedOnErr_loaded_ok, h, h2]),
      if_neg (by simp [resetLoadedOnErr_loaded_ok, h, h2])]
  simp

theorem epi_trace_append (lh : KHdr) (b : Bool) (s : S) :
    ∃ t, (linuxEpilogue lh b s).trace = s.trace ++ t ∧ t.filter isAllocPages = [] := by
  simp only [linuxEpilogue, failFreeParams_trace, failFreeKernel_trace, failFreeCmdline_trace,
             noteKfree_trace, resetLoadedOnErr_trace, resetLoadedOnErr_errno,
             resetLoadedOnErr_params, resetLoadedOnErr_linux_cmdline,
             resetLoadedOnErr_kernel_mem, resetLoadedOnErr_kernel_size,
             noteKfree_params, noteKfree_linux_cmdline, noteKfree_kernel_mem,
             noteKfree_kernel_size, noteKfree_errno,
             efiFreePages_params, efiFreePages_linux_cmdline, efiFreePages_kernel_mem,
             List.append_assoc]
  exact ⟨_, rfl, by simp [List.filter_append]⟩

theorem epi_heap_empty (lh : KHdr) (b : Bool) (s : S) (herr : s.errno ≠ ErrNo.none)
    (hcover : ∀ c ∈ s.heap, c.addr ≠ 0 ∧
      (c.addr = s.params ∨ c.addr = s.linux_cmdline ∨ c.addr = s.kernel_mem)) :
    (linuxEpilogue lh b s).heap = [] := by
  rw [List.eq_nil_iff_forall_not_mem]
  intro c hc
  rw [linuxEpilogue, mem_failFreeParams_heap] at hc
  obtain ⟨hc, hp⟩ := hc
  rw [mem_failFreeKernel_heap] at hc
  obtain ⟨hc, hk⟩ := hc
  rw [mem_failFreeCmdline_heap] at hc
  obtain ⟨hc, hcm⟩ := hc
  have hl : (resetLoadedOnErr (noteKfree b s)).loaded = false :=
    resetLoadedOnErr_loaded_err _ (by simpa using herr)
  simp only [noteKfree_heap, resetLoadedOnErr_heap] at hc
  simp [hl] at hp hk hcm
  obtain ⟨hz, hcase⟩ := hcover c hc
  rcases hcase with hh | hh | hh
  · exact hp (by rw [← hh]; exact hz) hh
  · exact hcm (by rw [← hh]; exact hz) hh
  · exact hk (by rw [← hh]; exact hz) hh

theorem bodyfail_mono (s t r : S) (h : BodyFail t r) (hl : t.loaded = s.loaded) :
    BodyFail s r := ⟨h.1, h.2.trans hl⟩

theorem bodysucc_mono (s t r : S) (h : BodySucc t r) (he : t.errno = s.errno)
    (q : List Event) (ht : t.trace = s.trace ++ q)
    (q1 : Event.loadedFlip ∉ q) (q2 : Event.copyHdrToParams ∉ q)
    (q3 : Event.setTypeOfLoader ∉ q) : BodySucc s r := by
  obtain ⟨e1, e2, p, hp, m1, m2, m3⟩ := h
  refine ⟨he ▸ e1, e2, q ++ p, ?_, ?_, ?_, ?_⟩
  · rw [hp, ht]; simp
  · simp [q1, m1]
  · simp [q2, m2]
  · simp [q3, m3]

theorem stage3_cases (e : LoadEnv) (lh : KHdr) (s : S) :
    BodyFail s (linuxStage3 e lh s).1 ∨ BodySucc s (linuxStage3 e lh s).1 := by
  unfold linuxStage3
  cases hc : e.cmdlineAllocOk
  · simp [BodyFail]
  · cases hk : e.kernelPrefOk
    · cases hm : e.kernelMaxOk
      · simp [BodyFail]
      · right
        refine ⟨by simp, by simp,
          ⟨[Event.allocPages (pageAddr s.ctr) (BYTES_TO_PAGES (lh.cmdline_size + 1))
              Kind.cmdline,
            Event.allocPages (pageAddr (s.ctr + 1)) (BYTES_TO_PAGES lh.init_size)
              Kind.kernel], ?_, ?_, ?_, ?_⟩⟩ <;> simp
    · right
      refine ⟨by simp, by simp,
        ⟨[Event.allocPages (pageAddr s.ctr) (BYTES_TO_PAGES (lh.cmdline_size + 1))
            Kind.cmdline,
          Event.allocPages (pageAddr (s.ctr + 1)) (BYTES_TO_PAGES lh.init_size)
            Kind.kernel], ?_, ?_, ?_, ?_⟩⟩ <;> simp

theorem stage3_snd (e : LoadEnv) (lh : KHdr) (s : S) :
    (linuxStage3 e lh s).2.2 = true := by
  unfold linuxStage3
  cases hc : e.cmdlineAllocOk
  · simp
  · cases hk : e.kernelPrefOk <;> cases hm : e.kernelMaxOk <;> simp

theorem stage3_tail_cases (e : LoadEnv) (lh : KHdr) (s t : S) (h1 : t.loaded = s.loaded)
    (h2 : t.errno = s.errno) (q : List Event) (hq : t.trace = s.trace ++ q)
    (q1 : Event.loadedFlip ∉ q) (q2 : Event.copyHdrToParams ∉ q)
    (q3 : Event.setTypeOfLoader ∉ q) :
    BodyFail s (linuxStage3 e lh t).1 ∨ BodySucc s (linuxStage3 e lh t).1 := by
  rcases stage3_cases e lh t with hf | hs
  · exact Or.inl (bodyfail_mono _ _ _ hf h1)
  · exact Or.inr (bodysucc_mono _ _ _ hs h2 q hq q1 q2 q3)

theorem stage2_cases (e : LoadEnv) (s : S) :
    BodyFail s (linuxStage2 e s).1 ∨ BodySucc s (linuxStage2 e s).1 := by
  unfold linuxStage2
  cases hp : e.paramsAllocOk
  · simp [BodyFail]
  · simp only [allocAddr_true, efiAllocatePages_ctr_true]
    rw [if_neg (pageAddr_ne_zero _)]
    split
    · simp [BodyFail]
    split
    · simp [BodyFail]
    split
    · simp [BodyFail]
    split
    · simp [BodyFail]
    exact stage3_tail_cases e e.hdr s _ (by simp) (by simp)
      [Event.allocPages (pageAddr s.ctr) (BYTES_TO_PAGES 16384) Kind.params]
      (by simp) (by simp) (by simp) (by simp)

theorem stage2_snd (e : LoadEnv) (s : S) : (linuxStage2 e s).2.2 = true := by
  unfold linuxStage2
  cases hp : e.paramsAllocOk
  · simp
  · simp only [allocAddr_true, efiAllocatePages_ctr_true]
    rw [if_neg (pageAddr_ne_zero _)]
    split
    · simp
    split
    · simp
    split
    · simp
    split
    · simp
    exact stage3_snd e e.hdr _

theorem body_tail_cases (e : LoadEnv) (s t : S) (h1 : t.loaded = s.loaded)
    (h2 : t.errno = s.errno) (q : List Event) (hq : t.trace = s.trace ++ q)
    (q1 : Event.loadedFlip ∉ q) (q2 : Event.copyHdrToParams ∉ q)
    (q3 : Event.setTypeOfLoader ∉ q) :
    BodyFail s (linuxStage2 e t).1 ∨
      (BodySucc s (linuxStage2 e t).1 ∧ (linuxStage2 e t).2.2 = true) := by
  rcases stage2_cases e t with hf | hs
  · exact Or.inl (bodyfail_mono _ _ _ hf h1)
  · exact Or.inr ⟨bodysucc_mono _ _ _ hs h2 q hq q1 q2 q3, stage2_snd e t⟩

theorem body_cases (e : LoadEnv) (s : S) :
    BodyFail s (linuxBody e s).1 ∨
      (BodySucc s (linuxBody e s).1 ∧ (linuxBody e s).2.2 = true) := by
  unfold linuxBody
  split
  · simp [BodyFail]
  split
  · simp [BodyFail]
  split
  · simp [BodyFail]
  split
  · simp [BodyFail]
  cases hv : grub_linuxefi_secure_validate e.shim
  · simp only [hv]
    simp [BodyFail]
  · simp only [hv]
    rw [if_neg (by simp)]
    exact body_tail_cases e s _ (by simp) (by simp)
      [Event.kmalloc, Event.measure "UEFI Linux kernel", Event.validate true]
      (by simp) (by simp) (by simp) (by simp)

theorem stage3_trace_append (e : LoadEnv) (lh : KHdr) (s : S) :
    ∃ t, (linuxStage3 e lh s).1.trace = s.trace ++ t := by
  unfold linuxStage3
  cases hc : e.cmdlineAllocOk
  · exact ⟨[], by simp⟩
  · cases hk : e.kernelPrefOk
    · cases hm : e.kernelMaxOk
      · exact ⟨[Event.allocPages (pageAddr s.ctr) (BYTES_TO_PAGES (lh.cmdline_size + 1))
                  Kind.cmdline], by simp⟩
      · exact ⟨[Event.allocPages (pageAddr s.ctr) (BYTES_TO_PAGES (lh.cmdline_size + 1))
                  Kind.cmdline,
                Event.allocPages (pageAddr (s.ctr + 1)) (BYTES_TO_PAGES lh.init_size)
                  Kind.kernel,
                Event.loadedFlip, Event.copyHdrToParams, Event.setTypeOfLoader], by simp⟩
    · exact ⟨[Event.allocPages (pageAddr s.ctr) (BYTES_TO_PAGES (lh.cmdline_size + 1))
                Kind.cmdline,
              Event.allocPages (pageAddr (s.ctr + 1)) (BYTES_TO_PAGES lh.init_size)
                Kind.kernel,
              Event.loadedFlip, Event.copyHdrToParams, Event.setTypeOfLoader], by simp⟩

theorem stage3_trace_tail (e : LoadEnv) (lh : KHdr) (s t : S) (q : List Event)
    (hq : t.trace = s.trace ++ q) :
    ∃ u, (linuxStage3 e lh t).1.trace = s.trace ++ u := by
  obtain ⟨v, hv⟩ := stage3_trace_append e lh t
  exact ⟨q ++ v, by rw [hv, hq]; simp⟩

theorem stage2_trace_append (e : LoadEnv) (s : S) :
    ∃ t, (linuxStage2 e s).1.trace = s.trace ++ t := by
  unfold linuxStage2
  cases hp : e.paramsAllocOk
  · exact ⟨[], by simp⟩
  · simp only [allocAddr_true, efiAllocatePages_ctr_true]
    rw [if_neg (pageAddr_ne_zero _)]
    split
    · exact ⟨[Event.allocPages (pageAddr s.ctr) (BYTES_TO_PAGES 16384) Kind.params], by simp⟩
    split
    · exact ⟨[Event.allocPages (pageAddr s.ctr) (BYTES_TO_PAGES 16384) Kind.params], by simp⟩
    split
    · exact ⟨[Event.allocPages (pageAddr s.ctr) (BYTES_TO_PAGES 16384) Kind.params], by simp⟩
    split
    · exact ⟨[Event.allocPages (pageAddr s.ctr) (BYTES_TO_PAGES 16384) Kind.params], by simp⟩
    exact stage3_trace_tail e e.hdr s _
      [Event.allocPages (pageAddr s.ctr) (BYTES_TO_PAGES 16384) Kind.params] (by simp)

/-- C2 amended: on every load that ends Loaded, the loaded flip is
recorded immediately after the kernel image copy and loader
registration, and the patched header copy into the params block and the
type_of_loader store follow it, still within the same operation, before
the transient kernel buffer is freed and the operation returns. -/
theorem C2_amended_thm (e : LoadEnv) (s : S)
    (h : (grub_cmd_linux e s).loaded = true) :
    ∃ p, (grub_cmd_linux e s).trace
        = s.trace ++ p ++ [Event.loadedFlip, Event.copyHdrToParams,
                           Event.setTypeOfLoader, Event.kfree] ∧
      Event.loadedFlip ∉ p ∧ Event.copyHdrToParams ∉ p ∧ Event.setTypeOfLoader ∉ p := by
  rcases body_cases e s with hf | ⟨hs, hb⟩
  · rw [grub_cmd_linux, epi_loaded_of_err _ _ _ hf.1] at h
    exact absurd h (by simp)
  · obtain ⟨he, hl, p, ht, m1, m2, m3⟩ := hs
    by_cases herr : s.errno = ErrNo.none
    · refine ⟨p, ?_, m1, m2, m3⟩
      rw [grub_cmd_linux]
      rw [hb, epi_trace_of_loaded _ _ (he.trans herr) hl, ht]
      simp
    · rw [grub_cmd_linux, epi_loaded_of_err _ _ _ (by rw [he]; exact herr)] at h
      exact absurd h (by simp)

/-- C2 amended witness: the concrete successful load. -/
theorem C2_amended_witness :
    (grub_cmd_linux goodLoadEnv S0).loaded = true ∧
    (∃ p, (grub_cmd_linux goodLoadEnv S0).trace
        = S0.trace ++ p ++ [Event.loadedFlip, Event.copyHdrToParams,
                            Event.setTypeOfLoader, Event.kfree] ∧
      Event.loadedFlip ∉ p ∧ Event.copyHdrToParams ∉ p ∧ Event.setTypeOfLoader ∉ p) :=
  ⟨by decide, C2_amended_thm goodLoadEnv S0 (by decide)⟩

theorem stage2_trace_tail (e : LoadEnv) (s t : S) (q : List Event)
    (hq : t.trace = s.trace ++ q) :
    ∃ u, (linuxStage2 e t).1.trace = s.trace ++ (q ++ u) := by
  obtain ⟨v, hv⟩ := stage2_trace_append e t
  exact ⟨v, by rw [hv, hq]; simp⟩

theorem body_sigfail (e : LoadEnv) (s : S) (h1 : e.argc ≠ 0) (h2 : e.openOk = true)
    (h3 : e.mallocOk = true) (h4 : e.readOk = true)
    (hv : grub_linuxefi_secure_validate e.shim = false) :
    (linuxBody e s).1.errno = ErrNo.invalidCommand ∧
    (linuxBody e s).1.errmsg = "invalid signature" ∧
    (linuxBody e s).1.trace = s.trace ++ [Event.kmalloc,
      Event.measure "UEFI Linux kernel", Event.validate false, Event.kfree] := by
  unfold linuxBody
  rw [if_neg h1, if_neg (by simp [h2]), if_neg (by simp [h3]), if_neg (by simp [h4])]
  simp only [hv]
  try rw [if_pos rfl]
  exact ⟨by simp, by simp, by simp⟩

theorem body_trace_reach (e : LoadEnv) (s : S) (h1 : e.argc ≠ 0) (h2 : e.openOk = true)
    (h3 : e.mallocOk = true) (h4 : e.readOk = true) :
    ∃ rest, (linuxBody e s).1.trace
      = s.trace ++ ([Event.kmalloc, Event.measure "UEFI Linux kernel",
                     Event.validate (grub_linuxefi_secure_validate e.shim)] ++ rest) := by
  unfold linuxBody
  rw [if_neg h1, if_neg (by simp [h2]), if_neg (by simp [h3]), if_neg (by simp [h4])]
  cases hv : grub_linuxefi_secure_validate e.shim
  · simp only [hv]
    try rw [if_pos rfl]
    exact ⟨[Event.kfree], by simp⟩
  · simp only [hv]
    try rw [if_neg (by simp)]
    exact stage2_trace_tail e s _
      [Event.kmalloc, Event.measure "UEFI Linux kernel", Event.validate true] (by simp)

/-- C8: in every load that reaches the verification stage, the TPM
measurement of the whole kernel file is recorded immediately before the
signature verification, whatever the verdict; every firmware page
allocation of the attempt lies after the verification in the trace; and
when the verification verdict is negative, in particular whenever the
shim protocol is absent while secure boot is enforced, the load fails
with the invalid signature error and no page is allocated at all. -/
theorem C8_thm (e : LoadEnv) (s : S) (h1 : e.argc ≠ 0) (h2 : e.openOk = true)
    (h3 : e.mallocOk = true) (h4 : e.readOk = true) :
    ∃ rest, (grub_cmd_linux e s).trace
        = s.trace ++ [Event.kmalloc, Event.measure "UEFI Linux kernel",
                      Event.validate (grub_linuxefi_secure_validate e.shim)] ++ rest ∧
      (grub_linuxefi_secure_validate e.shim = false →
        (grub_cmd_linux e s).errno = ErrNo.invalidCommand ∧
        (grub_cmd_linux e s).errmsg = "invalid signature" ∧
        rest.filter isAllocPages = []) := by
  obtain ⟨rest, hbt⟩ := body_trace_reach e s h1 h2 h3 h4
  obtain ⟨u, hu, hfu⟩ := epi_trace_append (linuxBody e s).2.1 (linuxBody e s).2.2
    (linuxBody e s).1
  refine ⟨rest ++ u, ?_, fun hf => ?_⟩
  · simp only [grub_cmd_linux]
    rw [hu, hbt]
    simp
  · obtain ⟨he, hm, ht⟩ := body_sigfail e s h1 h2 h3 h4 hf
    rw [hbt, hf] at ht
    have hrest : rest = [Event.kfree] := by
      have := List.append_cancel_left ht
      simpa using this
    refine ⟨?_, ?_, ?_⟩
    · simp only [grub_cmd_linux]
      rw [epi_errno]
      exact he
    · simp only [grub_cmd_linux]
      rw [epi_errmsg]
      exact hm
    · simp [hrest, List.filter_append, hfu, isAllocPages]

/-- C8 witness: the shim-absent secure-boot-enforced scenario. -/
theorem C8_witness :
    noShimSecureEnv.argc ≠ 0 ∧ noShimSecureEnv.openOk = true ∧
    noShimSecureEnv.mallocOk = true ∧ noShimSecureEnv.readOk = true ∧
    (∃ rest, (grub_cmd_linux noShimSecureEnv S0).trace
        = S0.trace ++ [Event.kmalloc, Event.measure "UEFI Linux kernel",
                       Event.validate (grub_linuxefi_secure_validate noShimSecureEnv.shim)]
          ++ rest ∧
      (grub_linuxefi_secure_validate noShimSecureEnv.shim = false →
        (grub_cmd_linux noShimSecureEnv S0).errno = ErrNo.invalidCommand ∧
        (grub_cmd_linux noShimSecureEnv S0).errmsg = "invalid signature" ∧
        rest.filter isAllocPages = [])) :=
  ⟨by decide, by decide, by decide, by decide,
   C8_thm noShimSecureEnv S0 (by decide) (by decide) (by decide) (by decide)⟩

theorem ALIGN_UP_four (n : Nat) : ALIGN_UP n 4 = ((n + 3) / 4) * 4 := by
  unfold ALIGN_UP
  congr 2

theorem ALIGN_UP_split (n : Nat) : ALIGN_UP n 4 = n + ALIGN_UP_OVERHEAD n 4 := by
  unfold ALIGN_UP ALIGN_UP_OVERHEAD
  omega

theorem openLoop_all_ok (files : List IFile) (h : ∀ f ∈ files, f.openOk = true) :
    openLoop files = ((files.map (fun f => ALIGN_UP f.size 4)).sum, true) := by
  induction files with
  | nil => simp [openLoop]
  | cons f rest ih =>
    rw [openLoop, if_pos (h f (by simp)), ih (fun g hg => h g (by simp [hg]))]
    simp

theorem initrdReadLoop_ok (s : S) (files : List IFile)
    (h : ∀ f ∈ files, f.data.length = f.size) :
    initrdReadLoop s files = { s with
      initrdData := s.initrdData ++
        (files.map (fun f => f.data ++ List.replicate (ALIGN_UP_OVERHEAD f.size 4) 0)).join,
      trace := s.trace ++ files.map (fun _ => Event.measure "UEFI Linux initrd") } := by
  induction files generalizing s with
  | nil => simp [initrdReadLoop]
  | cons f rest ih =>
    rw [initrdReadLoop, if_neg (by simp [h f (by simp)])]
    rw [ih _ (fun g hg => h g (by simp [hg]))]
    simp

theorem initrdReadLoop_fail (s : S) (good : List IFile) (bad : IFile) (rest : List IFile)
    (hgood : ∀ f ∈ good, f.data.length = f.size) (hbad : bad.data.length ≠ bad.size) :
    initrdReadLoop s (good ++ bad :: rest) = { s with
      errno := ErrNo.fileReadError, errmsg := "premature end of file",
      initrdData := s.initrdData ++
        (good.map (fun f => f.data ++ List.replicate (ALIGN_UP_OVERHEAD f.size 4) 0)).join,
      trace := s.trace ++ good.map (fun _ => Event.measure "UEFI Linux initrd") } := by
  induction good generalizing s with
  | nil =>
    rw [List.nil_append, initrdReadLoop, if_pos hbad]
    simp
  | cons f g2 ih =>
    rw [List.cons_append, initrdReadLoop, if_neg (by simp [hgood f (by simp)])]
    rw [ih _ (fun g hg => hgood g (by simp [hg]))]
    simp

theorem initrdEpilogue_ok (n : Nat) (s : S) (h : s.errno = ErrNo.none) :
    initrdEpilogue n s = s := by
  unfold initrdEpilogue
  rw [if_neg (by simp [h])]

theorem initrdBody_success (e : InitrdEnv) (s : S) (hl : s.loaded = true)
    (hz : e.zallocOk = true) (ha : e.allocOk = true) (hne : e.files ≠ [])
    (hok : ∀ f ∈ e.files, f.openOk = true ∧ f.data.length = f.size) :
    initrdBody e s = ({ s with
      initrd_mem := pageAddr s.ctr,
      paramsBlk := { s.paramsBlk with
        ramdisk_size := (e.files.map (fun f => ALIGN_UP f.size 4)).sum % 4294967296,
        ramdisk_image := pageAddr s.ctr % 4294967296 },
      initrdData :=
        (e.files.map (fun f => f.data ++ List.replicate (ALIGN_UP_OVERHEAD f.size 4) 0)).join,
      ctr := s.ctr + 1,
      heap := { addr := pageAddr s.ctr,
                pages := BYTES_TO_PAGES (e.files.map (fun f => ALIGN_UP f.size 4)).sum,
                kind := Kind.initrd } :: s.heap,
      trace := s.trace ++ [Event.allocPages (pageAddr s.ctr)
                 (BYTES_TO_PAGES (e.files.map (fun f => ALIGN_UP f.size 4)).sum) Kind.initrd]
               ++ e.files.map (fun _ => Event.measure "UEFI Linux initrd") },
     (e.files.map (fun f => ALIGN_UP f.size 4)).sum) := by
  unfold initrdBody
  rw [if_neg (by simp [hne]), if_neg (by simp [hl]), if_neg (by simp [hz]),
      openLoop_all_ok e.files (fun f hf => (hok f hf).1)]
  rw [if_neg (by simp)]
  simp only [ha, allocAddr_true]
  rw [if_neg (pageAddr_ne_zero _)]
  rw [initrdReadLoop_ok _ _ (fun f hf => (hok f hf).2)]
  simp

theorem join_seg_length (files : List IFile)
    (hok : ∀ f ∈ files, f.data.length = f.size) :
    ((files.map (fun f => f.data ++ List.replicate (ALIGN_UP_OVERHEAD f.size 4) 0)).join).length
      = (files.map (fun f => ALIGN_UP f.size 4)).sum := by
  induction files with
  | nil => simp
  | cons f r ih =>
    simp only [List.map_cons, List.join_cons, List.length_append, List.sum_cons]
    rw [ih (fun g hg => hok g (by simp [hg]))]
    simp [hok f (by simp), ALIGN_UP_split]

/-- C9: for every initrd load over files of sizes s1..sn in which every
open and read succeeds and the allocation is satisfied, the page request
for the InitrdBuffer covers exactly T = sum of the sizes rounded up to
4-byte multiples, the staged buffer holds each file followed by zero
alignment padding and has length exactly T, T is recorded in the
ramdisk_size field of the params block, and the operation succeeds. -/
theorem C9_thm (e : InitrdEnv) (s : S) (hl : s.loaded = true) (he : s.errno = ErrNo.none)
    (hz : e.zallocOk = true) (ha : e.allocOk = true) (hne : e.files ≠ [])
    (hok : ∀ f ∈ e.files, f.openOk = true ∧ f.data.length = f.size)
    (hsz : (e.files.map (fun f => ((f.size + 3) / 4) * 4)).sum < 4294967296) :
    (grub_cmd_initrd e s).errno = ErrNo.none ∧
    (grub_cmd_initrd e s).paramsBlk.ramdisk_size
      = (e.files.map (fun f => ((f.size + 3) / 4) * 4)).sum ∧
    (grub_cmd_initrd e s).initrdData
      = (e.files.map (fun f => f.data ++ List.replicate ((4 - f.size % 4) % 4) 0)).join ∧
    (grub_cmd_initrd e s).initrdData.length
      = (e.files.map (fun f => ((f.size + 3) / 4) * 4)).sum ∧
    (grub_cmd_initrd e s).trace
      = s.trace ++ [Event.allocPages (pageAddr s.ctr)
          (BYTES_TO_PAGES (e.files.map (fun f => ((f.size + 3) / 4) * 4)).sum) Kind.initrd]
        ++ e.files.map (fun _ => Event.measure "UEFI Linux initrd") ∧
    (grub_cmd_initrd e s).heap
      = { addr := pageAddr s.ctr,
          pages := BYTES_TO_PAGES (e.files.map (fun f => ((f.size + 3) / 4) * 4)).sum,
          kind := Kind.initrd } :: s.heap := by
  have hT : (e.files.map (fun f => ALIGN_UP f.size 4)).sum
      = (e.files.map (fun f => ((f.size + 3) / 4) * 4)).sum := by
    simp [ALIGN_UP_four]
  have hb := initrdBody_success e s hl hz ha hne hok
  simp only [grub_cmd_initrd]
  rw [hb]
  rw [initrdEpilogue_ok _ _ (by simp [he])]
  have hlt : (e.files.map (fun f => ALIGN_UP f.size 4)).sum < 4294967296 := by
    rw [hT]; exact hsz
  refine ⟨by simp [he], ?_, ?_, ?_, ?_, ?_⟩
  · simp [ALIGN_UP_four, Nat.mod_eq_of_lt hsz]
  · simp [ALIGN_UP_OVERHEAD]
  · simp only [← hT]
    simp [join_seg_length e.files (fun f hf => (hok f hf).2)]
  · simp [hT]
  · simp [hT]

theorem initrdBody_readfail (e : InitrdEnv) (s : S) (hl : s.loaded = true)
    (hz : e.zallocOk = true) (ha : e.allocOk = true)
    (good : List IFile) (bad : IFile) (rest : List IFile)
    (hsplit : e.files = good ++ bad :: rest)
    (hopen : ∀ f ∈ e.files, f.openOk = true)
    (hgood : ∀ f ∈ good, f.data.length = f.size) (hbad : bad.data.length ≠ bad.size) :
    initrdBody e s = ({ s with
      errno := ErrNo.fileReadError, errmsg := "premature end of file",
      initrd_mem := pageAddr s.ctr,
      paramsBlk := { s.paramsBlk with
        ramdisk_size := (e.files.map (fun f => ALIGN_UP f.size 4)).sum % 4294967296,
        ramdisk_image := pageAddr s.ctr % 4294967296 },
      initrdData :=
        (good.map (fun f => f.data ++ List.replicate (ALIGN_UP_OVERHEAD f.size 4) 0)).join,
      ctr := s.ctr + 1,
      heap := { addr := pageAddr s.ctr,
                pages := BYTES_TO_PAGES (e.files.map (fun f => ALIGN_UP f.size 4)).sum,
                kind := Kind.initrd } :: s.heap,
      trace := s.trace ++ [Event.allocPages (pageAddr s.ctr)
                 (BYTES_TO_PAGES (e.files.map (fun f => ALIGN_UP f.size 4)).sum) Kind.initrd]
               ++ good.map (fun _ => Event.measure "UEFI Linux initrd") },
     (e.files.map (fun f => ALIGN_UP f.size 4)).sum) := by
  unfold initrdBody
  rw [if_neg (by simp [hsplit]), if_neg (by simp [hl]), if_neg (by simp [hz]),
      openLoop_all_ok e.files hopen]
  rw [if_neg (by simp)]
  simp only [ha, allocAddr_true]
  rw [if_neg (pageAddr_ne_zero _)]
  rw [show e.files = good ++ bad :: rest from hsplit]
  rw [initrdReadLoop_fail _ good bad rest hgood hbad]
  rw [if_pos (by simp)]
  simp

/-- C3 amended: an initrd load that fails on a short read after its
buffer was allocated releases the buffer exactly once with the page
count it was allocated with and reports the read failure, but the
ramdisk address and size fields of the params block, written immediately
after the allocation, are left holding the new buffer address and the
computed total size rather than their previous values. -/
theorem C3_amended_thm (e : InitrdEnv) (s : S) (hl : s.loaded = true)
    (he : s.errno = ErrNo.none) (hz : e.zallocOk = true) (ha : e.allocOk = true)
    (good : List IFile) (bad : IFile) (rest : List IFile)
    (hsplit : e.files = good ++ bad :: rest)
    (hopen : ∀ f ∈ e.files, f.openOk = true)
    (hgood : ∀ f ∈ good, f.data.length = f.size) (hbad : bad.data.length ≠ bad.size)
    (hbound : ∀ c ∈ s.heap, c.addr ≤ 4096 * s.ctr) :
    (grub_cmd_initrd e s).errno = ErrNo.fileReadError ∧
    (grub_cmd_initrd e s).paramsBlk.ramdisk_size
      = (e.files.map (fun f => ALIGN_UP f.size 4)).sum % 4294967296 ∧
    (grub_cmd_initrd e s).paramsBlk.ramdisk_image = pageAddr s.ctr % 4294967296 ∧
    (grub_cmd_initrd e s).heap = s.heap ∧
    (grub_cmd_initrd e s).trace
      = s.trace ++ [Event.allocPages (pageAddr s.ctr)
          (BYTES_TO_PAGES (e.files.map (fun f => ALIGN_UP f.size 4)).sum) Kind.initrd]
        ++ good.map (fun _ => Event.measure "UEFI Linux initrd")
        ++ [Event.freePages (pageAddr s.ctr)
             (BYTES_TO_PAGES (e.files.map (fun f => ALIGN_UP f.size 4)).sum)] := by
  have hb := initrdBody_readfail e s hl hz ha good bad rest hsplit hopen hgood hbad
  simp only [grub_cmd_initrd]
  rw [hb]
  unfold initrdEpilogue
  rw [if_pos ⟨by simp, by simp⟩]
  have hfil : s.heap.filter (fun c => c.addr != pageAddr s.ctr) = s.heap := by
    rw [List.filter_eq_self]
    intro c hc
    have := hbound c hc
    simp only [bne_iff_ne, ne_eq, pageAddr]
    omega
  refine ⟨by simp, by simp, by simp, ?_, by simp⟩
  simp [hfil]

theorem mem_unloadFreeInitrd_heap (s : S) (c : Cell) :
    c ∈ (unloadFreeInitrd s).heap ↔
      c ∈ s.heap ∧ (s.initrd_mem ≠ 0 → c.addr ≠ s.initrd_mem) := by
  unfold unloadFreeInitrd
  split <;> simp_all [List.mem_filter]

theorem mem_unloadFreeCmdline_heap (s : S) (c : Cell) :
    c ∈ (unloadFreeCmdline s).heap ↔
      c ∈ s.heap ∧ (s.linux_cmdline ≠ 0 → c.addr ≠ s.linux_cmdline) := by
  unfold unloadFreeCmdline
  split <;> simp_all [List.mem_filter]

theorem mem_unloadFreeKernel_heap (s : S) (c : Cell) :
    c ∈ (unloadFreeKernel s).heap ↔
      c ∈ s.heap ∧ (s.kernel_mem ≠ 0 → c.addr ≠ s.kernel_mem) := by
  unfold unloadFreeKernel
  split <;> simp_all [List.mem_filter]

theorem mem_unloadFreeParams_heap (s : S) (c : Cell) :
    c ∈ (unloadFreeParams s).heap ↔
      c ∈ s.heap ∧ (s.params ≠ 0 → c.addr ≠ s.params) := by
  unfold unloadFreeParams
  split <;> simp_all [List.mem_filter]

theorem unload_loaded (s : S) : (grub_linuxefi_unload s).loaded = false := by
  simp [grub_linuxefi_unload]

theorem unload_params (s : S) : (grub_linuxefi_unload s).params = s.params := by
  simp [grub_linuxefi_unload]

theorem unload_linux_cmdline (s : S) :
    (grub_linuxefi_unload s).linux_cmdline = s.linux_cmdline := by
  simp [grub_linuxefi_unload]

theorem unload_kernel_mem (s : S) : (grub_linuxefi_unload s).kernel_mem = s.kernel_mem := by
  simp [grub_linuxefi_unload]

theorem unload_initrd_mem (s : S) : (grub_linuxefi_unload s).initrd_mem = s.initrd_mem := by
  simp [grub_linuxefi_unload]

theorem unload_ctr (s : S) : (grub_linuxefi_unload s).ctr = s.ctr := by
  simp [grub_linuxefi_unload]

theorem unload_heap_empty (s : S)
    (hcover : ∀ c ∈ s.heap, c.addr ≠ 0 ∧
      (c.addr = s.params ∨ c.addr = s.linux_cmdline ∨ c.addr = s.kernel_mem ∨
       c.addr = s.initrd_mem)) :
    (grub_linuxefi_unload s).heap = [] := by
  rw [List.eq_nil_iff_forall_not_mem]
  intro c hc
  rw [grub_linuxefi_unload, mem_unloadFreeParams_heap] at hc
  obtain ⟨hc, hp⟩ := hc
  rw [mem_unloadFreeKernel_heap] at hc
  obtain ⟨hc, hk⟩ := hc
  rw [mem_unloadFreeCmdline_heap] at hc
  obtain ⟨hc, hcm⟩ := hc
  rw [mem_unloadFreeInitrd_heap] at hc
  obtain ⟨hc, hi⟩ := hc
  simp only [unloadFreeInitrd_params, unloadFreeCmdline_params, unloadFreeKernel_params,
             unloadFreeInitrd_linux_cmdline, unloadFreeCmdline_linux_cmdline,
             unloadFreeKernel_linux_cmdline, unloadFreeInitrd_kernel_mem,
             unloadFreeCmdline_kernel_mem, unloadFreeKernel_kernel_mem,
             unloadFreeInitrd_initrd_mem] at hp hk hcm hi
  simp only at hc hp hk hcm hi
  obtain ⟨hz, hcase⟩ := hcover c hc
  rcases hcase with hh | hh | hh | hh
  · exact hp (by rw [← hh]; exact hz) hh
  · exact hcm (by rw [← hh]; exact hz) hh
  · exact hk (by rw [← hh]; exact hz) hh
  · exact hi (by rw [← hh]; exact hz) hh

theorem liveA_congr (s1 s2 : S) (h : s1.heap = s2.heap) (k : Kind) :
    liveA s1 k = liveA s2 k := by
  simp [liveA, liveH, h]

theorem mem_liveA (s : S) (c : Cell) (hc : c ∈ s.heap) : c.addr ∈ liveA s c.kind := by
  simp only [liveA, liveH, List.mem_map, List.mem_filter]
  exact ⟨c, ⟨hc, by simp⟩, rfl⟩

theorem inv_cover (s : S) (h : Inv s) : ∀ c ∈ s.heap, c.addr ≠ 0 ∧
    (c.addr = s.params ∨ c.addr = s.linux_cmdline ∨ c.addr = s.kernel_mem ∨
     c.addr = s.initrd_mem) := by
  intro c hc
  obtain ⟨hb, hd, ht, hf⟩ := h
  cases hl : s.loaded
  · rw [hf hl] at hc
    cases hc
  · obtain ⟨hp0, hc0, hk0, hP, hC, hK, hI⟩ := ht hl
    have haddr := mem_liveA s c hc
    cases hck : c.kind
    · rw [hck, hP] at haddr
      simp at haddr
      exact ⟨by rw [haddr]; exact hp0, Or.inl haddr⟩
    · rw [hck, hC] at haddr
      simp at haddr
      exact ⟨by rw [haddr]; exact hc0, Or.inr (Or.inl haddr)⟩
    · rw [hck, hK] at haddr
      simp at haddr
      exact ⟨by rw [haddr]; exact hk0, Or.inr (Or.inr (Or.inl haddr))⟩
    · rcases hI with hI | ⟨hi0, hI⟩
      · rw [hck, hI] at haddr
        cases haddr
      · rw [hck, hI] at haddr
        simp at haddr
        exact ⟨by rw [haddr]; exact hi0, Or.inr (Or.inr (Or.inr haddr))⟩

theorem unload_inv (s : S) (h : Inv s) : Inv (grub_linuxefi_unload s) := by
  have hheap := unload_heap_empty s (inv_cover s h)
  obtain ⟨hb, hd, _, _⟩ := h
  refine ⟨?_, ?_, ?_, ?_⟩
  · refine ⟨?_, ?_, ?_, ?_, ?_⟩
    · rw [unload_params, unload_ctr]; exact hb.1
    · rw [unload_linux_cmdline, unload_ctr]; exact hb.2.1
    · rw [unload_kernel_mem, unload_ctr]; exact hb.2.2.1
    · rw [unload_initrd_mem, unload_ctr]; exact hb.2.2.2.1
    · rw [hheap]; intro c hc; cases hc
  · obtain ⟨d1, d2, d3, d4, d5, d6⟩ := hd
    refine ⟨?_, ?_, ?_, ?_, ?_, ?_⟩ <;>
      simp only [unload_params, unload_linux_cmdline, unload_kernel_mem, unload_initrd_mem]
    · exact d1
    · exact d2
    · exact d3
    · exact d4
    · exact d5
    · exact d6
  · intro hl
    rw [unload_loaded s] at hl
    cases hl
  · intro _
    exact hheap

theorem inv_fail_leaf (lh : KHdr) (b : Bool) (t : S)
    (herr : t.errno ≠ ErrNo.none)
    (hcov : ∀ c ∈ t.heap, c.addr ≠ 0 ∧
      (c.addr = t.params ∨ c.addr = t.linux_cmdline ∨ c.addr = t.kernel_mem))
    (hb : ptrBound t) (hd : ptrsDistinct t) :
    Inv (linuxEpilogue lh b t) := by
  have hheap := epi_heap_empty lh b t herr hcov
  have hload := epi_loaded_of_err lh b t herr
  refine ⟨?_, ?_, ?_, ?_⟩
  · refine ⟨?_, ?_, ?_, ?_, ?_⟩
    · rw [epi_params, epi_ctr]; exact hb.1
    · rw [epi_linux_cmdline, epi_ctr]; exact hb.2.1
    · rw [epi_kernel_mem, epi_ctr]; exact hb.2.2.1
    · rw [epi_initrd_mem, epi_ctr]; exact hb.2.2.2.1
    · rw [hheap]; intro c hc; cases hc
  · obtain ⟨d1, d2, d3, d4, d5, d6⟩ := hd
    refine ⟨?_, ?_, ?_, ?_, ?_, ?_⟩ <;>
      simp only [epi_params, epi_linux_cmdline, epi_kernel_mem, epi_initrd_mem]
    · exact d1
    · exact d2
    · exact d3
    · exact d4
    · exact d5
    · exact d6
  · intro hl
    rw [hload] at hl
    cases hl
  · intro _
    exact hheap

theorem inv_succ_leaf (lh : KHdr) (t : S)
    (he2 : t.errno = ErrNo.none) (hl : t.loaded = true)
    (hshape : LoadedShape t) (hb : ptrBound t) (hd : ptrsDistinct t) :
    Inv (linuxEpilogue lh true t) := by
  have hheap := epi_heap_of_loaded lh true t he2 hl
  have hload : (linuxEpilogue lh true t).loaded = true := by
    rw [epi_loaded_of_ok _ _ _ he2]; exact hl
  refine ⟨?_, ?_, ?_, ?_⟩
  · refine ⟨?_, ?_, ?_, ?_, ?_⟩
    · rw [epi_params, epi_ctr]; exact hb.1
    · rw [epi_linux_cmdline, epi_ctr]; exact hb.2.1
    · rw [epi_kernel_mem, epi_ctr]; exact hb.2.2.1
    · rw [epi_initrd_mem, epi_ctr]; exact hb.2.2.2.1
    · rw [hheap, epi_ctr]; exact hb.2.2.2.2
  · obtain ⟨d1, d2, d3, d4, d5, d6⟩ := hd
    refine ⟨?_, ?_, ?_, ?_, ?_, ?_⟩ <;>
      simp only [epi_params, epi_linux_cmdline, epi_kernel_mem, epi_initrd_mem]
    · exact d1
    · exact d2
    · exact d3
    · exact d4
    · exact d5
    · exact d6
  · intro _
    obtain ⟨hp0, hc0, hk0, hP, hC, hK, hI⟩ := hshape
    refine ⟨?_, ?_, ?_, ?_, ?_, ?_, ?_⟩ <;>
      simp only [epi_params, epi_linux_cmdline, epi_kernel_mem, epi_initrd_mem,
                 liveA_congr _ _ hheap]
    · exact hp0
    · exact hc0
    · exact hk0
    · exact hP
    · exact hC
    · exact hK
    · exact hI
  · intro hfalse
    rw [hload] at hfalse
    cases hfalse

theorem omega_imp_test (a b : Nat) (h : a ≠ 0 → b ≠ 0 → a ≠ b) :
    a ≠ 0 → b ≠ 0 → a ≠ b := by omega

theorem ptrsDistinct4_freshP (p c k i B v : Nat) (hd : ptrsDistinct4 p c k i)
    (bc : c ≤ B) (bk : k ≤ B) (bi : i ≤ B) (hv : B < v) : ptrsDistinct4 v c k i := by
  unfold ptrsDistinct4 at *
  omega

theorem ptrsDistinct4_freshPC0 (p c k i B v : Nat) (hd : ptrsDistinct4 p c k i)
    (bk : k ≤ B) (bi : i ≤ B) (hv : B < v) : ptrsDistinct4 v 0 k i := by
  unfold ptrsDistinct4 at *
  omega

theorem ptrsDistinct4_freshPCK0 (p c k i B v w : Nat) (hd : ptrsDistinct4 p c k i)
    (bi : i ≤ B) (hv : B < v) (hw : B < w) (hvw : v ≠ w) : ptrsDistinct4 v w 0 i := by
  unfold ptrsDistinct4 at *
  omega

theorem ptrsDistinct4_freshPCK (p c k i B v w u : Nat) (hd : ptrsDistinct4 p c k i)
    (bi : i ≤ B) (hv : B < v) (hw : B < w) (hu : B < u)
    (hvw : v ≠ w) (hvu : v ≠ u) (hwu : w ≠ u) : ptrsDistinct4 v w u i := by
  unfold ptrsDistinct4 at *
  omega

theorem ptrsDistinct4_zeroP (p c k i : Nat) (hd : ptrsDistinct4 p c k i) :
    ptrsDistinct4 0 c k i := by
  unfold ptrsDistinct4 at *
  omega

theorem pageAddr_gt (n m : Nat) (h : m ≤ n) : 4096 * m < pageAddr n := by
  unfold pageAddr
  omega

theorem pageAddr_le (n m : Nat) (h : n < m) : pageAddr n ≤ 4096 * m := by
  unfold pageAddr
  omega

theorem pageAddr_inj_ne (n m : Nat) (h : n ≠ m) : pageAddr n ≠ pageAddr m := by
  unfold pageAddr
  omega

theorem inv_leaf_frame (lh : KHdr) (b : Bool) (s t : S)
    (hb : ptrBound s) (hd : ptrsDistinct s) (hh : s.heap = [])
    (h1 : t.errno ≠ ErrNo.none)
    (h2 : t.params = s.params) (h3 : t.linux_cmdline = s.linux_cmdline)
    (h4 : t.kernel_mem = s.kernel_mem) (h5 : t.initrd_mem = s.initrd_mem)
    (h6 : t.ctr = s.ctr) (h7 : t.heap = s.heap) :
    Inv (linuxEpilogue lh b t) := by
  apply inv_fail_leaf lh b t h1
  · intro c hc
    rw [h7, hh] at hc
    cases hc
  · refine ⟨?_, ?_, ?_, ?_, ?_⟩
    · rw [h2, h6]; exact hb.1
    · rw [h3, h6]; exact hb.2.1
    · rw [h4, h6]; exact hb.2.2.1
    · rw [h5, h6]; exact hb.2.2.2.1
    · intro c hc; rw [h7, hh] at hc; cases hc
  · unfold ptrsDistinct
    rw [h2, h3, h4, h5]
    exact hd

theorem inv_leaf_params_zero (lh : KHdr) (b : Bool) (s t : S)
    (hb : ptrBound s) (hd : ptrsDistinct s) (hh : s.heap = [])
    (h1 : t.errno ≠ ErrNo.none)
    (h2 : t.params = 0) (h3 : t.linux_cmdline = s.linux_cmdline)
    (h4 : t.kernel_mem = s.kernel_mem) (h5 : t.initrd_mem = s.initrd_mem)
    (h6 : t.ctr = s.ctr) (h7 : t.heap = s.heap) :
    Inv (linuxEpilogue lh b t) := by
  apply inv_fail_leaf lh b t h1
  · intro c hc
    rw [h7, hh] at hc
    cases hc
  · refine ⟨?_, ?_, ?_, ?_, ?_⟩
    · rw [h2]; omega
    · rw [h3, h6]; exact hb.2.1
    · rw [h4, h6]; exact hb.2.2.1
    · rw [h5, h6]; exact hb.2.2.2.1
    · intro c hc; rw [h7, hh] at hc; cases hc
  · unfold ptrsDistinct
    rw [h2, h3, h4, h5]
    exact ptrsDistinct4_zeroP s.params _ _ _ hd

theorem inv_leaf_params_only (lh : KHdr) (b : Bool) (s t : S) (P1 : Nat)
    (hb : ptrBound s) (hd : ptrsDistinct s) (hh : s.heap = [])
    (h1 : t.errno ≠ ErrNo.none)
    (h2 : t.params = pageAddr s.ctr) (h3 : t.linux_cmdline = s.linux_cmdline)
    (h4 : t.kernel_mem = s.kernel_mem) (h5 : t.initrd_mem = s.initrd_mem)
    (h6 : t.ctr = s.ctr + 1)
    (h7 : t.heap = [{ addr := pageAddr s.ctr, pages := P1, kind := Kind.params }]) :
    Inv (linuxEpilogue lh b t) := by
  apply inv_fail_leaf lh b t h1
  · intro c hc
    rw [h7] at hc
    simp at hc
    rw [hc]
    exact ⟨pageAddr_ne_zero _, Or.inl h2.symm⟩
  · refine ⟨?_, ?_, ?_, ?_, ?_⟩
    · rw [h2, h6]; exact pageAddr_le _ _ (by omega)
    · rw [h3, h6]; have := hb.2.1; omega
    · rw [h4, h6]; have := hb.2.2.1; omega
    · rw [h5, h6]; have := hb.2.2.2.1; omega
    · intro c hc
      rw [h7] at hc
      simp at hc
      rw [hc, h6]
      exact ⟨pageAddr_le _ _ (by omega), pageAddr_ne_zero _⟩
  · unfold ptrsDistinct
    rw [h2, h3, h4, h5]
    exact ptrsDistinct4_freshP s.params _ _ _ (4096 * s.ctr) _ hd
      hb.2.1 hb.2.2.1 hb.2.2.2.1 (pageAddr_gt _ _ (by omega))

theorem inv_leaf_cmdline_zero (lh : KHdr) (b : Bool) (s t : S) (P1 : Nat)
    (hb : ptrBound s) (hd : ptrsDistinct s) (hh : s.heap = [])
    (h1 : t.errno ≠ ErrNo.none)
    (h2 : t.params = pageAddr s.ctr) (h3 : t.linux_cmdline = 0)
    (h4 : t.kernel_mem = s.kernel_mem) (h5 : t.initrd_mem = s.initrd_mem)
    (h6 : t.ctr = s.ctr + 1)
    (h7 : t.heap = [{ addr := pageAddr s.ctr, pages := P1, kind := Kind.params }]) :
    Inv (linuxEpilogue lh b t) := by
  apply inv_fail_leaf lh b t h1
  · intro c hc
    rw [h7] at hc
    simp at hc
    rw [hc]
    exact ⟨pageAddr_ne_zero _, Or.inl h2.symm⟩
  · refine ⟨?_, ?_, ?_, ?_, ?_⟩
    · rw [h2, h6]; exact pageAddr_le _ _ (by omega)
    · rw [h3]; omega
    · rw [h4, h6]; have := hb.2.2.1; omega
    · rw [h5, h6]; have := hb.2.2.2.1; omega
    · intro c hc
      rw [h7] at hc
      simp at hc
      rw [hc, h6]
      exact ⟨pageAddr_le _ _ (by omega), pageAddr_ne_zero _⟩
  · unfold ptrsDistinct
    rw [h2, h3, h4, h5]
    exact ptrsDistinct4_freshPC0 s.params s.linux_cmdline _ _ (4096 * s.ctr) _ hd
      hb.2.2.1 hb.2.2.2.1 (pageAddr_gt _ _ (by omega))

theorem inv_leaf_kernel_zero (lh : KHdr) (b : Bool) (s t : S) (P1 P2 : Nat)
    (hb : ptrBound s) (hd : ptrsDistinct s) (hh : s.heap = [])
    (h1 : t.errno ≠ ErrNo.none)
    (h2 : t.params = pageAddr s.ctr) (h3 : t.linux_cmdline = pageAddr (s.ctr + 1))
    (h4 : t.kernel_mem = 0) (h5 : t.initrd_mem = s.initrd_mem)
    (h6 : t.ctr = s.ctr + 2)
    (h7 : t.heap = [{ addr := pageAddr (s.ctr + 1), pages := P2, kind := Kind.cmdline },
                    { addr := pageAddr s.ctr, pages := P1, kind := Kind.params }]) :
    Inv (linuxEpilogue lh b t) := by
  apply inv_fail_leaf lh b t h1
  · intro c hc
    rw [h7] at hc
    simp at hc
    rcases hc with hc | hc <;> rw [hc]
    · exact ⟨pageAddr_ne_zero _, Or.inr (Or.inl h3.symm)⟩
    · exact ⟨pageAddr_ne_zero _, Or.inl h2.symm⟩
  · refine ⟨?_, ?_, ?_, ?_, ?_⟩
    · rw [h2, h6]; exact pageAddr_le _ _ (by omega)
    · rw [h3, h6]; exact pageAddr_le _ _ (by omega)
    · rw [h4]; omega
    · rw [h5, h6]; have := hb.2.2.2.1; omega
    · intro c hc
      rw [h7] at hc
      simp at hc
      rcases hc with hc | hc <;> rw [hc, h6]
      · exact ⟨pageAddr_le _ _ (by omega), pageAddr_ne_zero _⟩
      · exact ⟨pageAddr_le _ _ (by omega), pageAddr_ne_zero _⟩
  · unfold ptrsDistinct
    rw [h2, h3, h4, h5]
    exact ptrsDistinct4_freshPCK0 s.params s.linux_cmdline s.kernel_mem _
      (4096 * s.ctr) _ _ hd hb.2.2.2.1 (pageAddr_gt _ _ (by omega))
      (pageAddr_gt _ _ (by omega)) (pageAddr_inj_ne _ _ (by omega))

theorem inv_leaf_success (lh : KHdr) (s t : S) (P1 P2 P3 : Nat)
    (hb : ptrBound s) (hd : ptrsDistinct s) (hh : s.heap = []) (he : s.errno = ErrNo.none)
    (h1 : t.errno = s.errno) (h0 : t.loaded = true)
    (h2 : t.params = pageAddr s.ctr)
    (h3 : t.linux_cmdline = pageAddr (s.ctr + 1))
    (h4 : t.kernel_mem = pageAddr (s.ctr + 2))
    (h5 : t.initrd_mem = s.initrd_mem)
    (h6 : t.ctr = s.ctr + 3)
    (h7 : t.heap = [{ addr := pageAddr (s.ctr + 2), pages := P3, kind := Kind.kernel },
                    { addr := pageAddr (s.ctr + 1), pages := P2, kind := Kind.cmdline },
                    { addr := pageAddr s.ctr, pages := P1, kind := Kind.params }]) :
    Inv (linuxEpilogue lh true t) := by
  apply inv_succ_leaf lh t (h1.trans he) h0
  · refine ⟨?_, ?_, ?_, ?_, ?_, ?_, Or.inl ?_⟩
    · rw [h2]; exact pageAddr_ne_zero _
    · rw [h3]; exact pageAddr_ne_zero _
    · rw [h4]; exact pageAddr_ne_zero _
    · rw [h2]; simp [liveA, liveH, h7]
    · rw [h3]; simp [liveA, liveH, h7]
    · rw [h4]; simp [liveA, liveH, h7]
    · simp [liveA, liveH, h7]
  · refine ⟨?_, ?_, ?_, ?_, ?_⟩
    · rw [h2, h6]; exact pageAddr_le _ _ (by omega)
    · rw [h3, h6]; exact pageAddr_le _ _ (by omega)
    · rw [h4, h6]; exact pageAddr_le _ _ (by omega)
    · rw [h5, h6]; have := hb.2.2.2.1; omega
    · intro c hc
      rw [h7] at hc
      simp at hc
      rcases hc with hc | hc | hc <;> rw [hc, h6] <;>
        exact ⟨pageAddr_le _ _ (by omega), pageAddr_ne_zero _⟩
  · unfold ptrsDistinct
    rw [h2, h3, h4, h5]
    exact ptrsDistinct4_freshPCK s.params s.linux_cmdline s.kernel_mem _
      (4096 * s.ctr) _ _ _ hd hb.2.2.2.1 (pageAddr_gt _ _ (by omega))
      (pageAddr_gt _ _ (by omega)) (pageAddr_gt _ _ (by omega))
      (pageAddr_inj_ne _ _ (by omega)) (pageAddr_inj_ne _ _ (by omega))
      (pageAddr_inj_ne _ _ (by omega))

set_option maxHeartbeats 1000000 in
theorem load_inv (e : LoadEnv) (s : S) (hb : ptrBound s) (hd : ptrsDistinct s)
    (hh : s.heap = []) (he : s.errno = ErrNo.none) : Inv (grub_cmd_linux e s) := by
  unfold grub_cmd_linux linuxBody
  split
  · exact inv_leaf_frame _ _ s _ hb hd hh (by simp) (by simp) (by simp) (by simp)
      (by simp) (by simp) (by simp)
  split
  · exact inv_leaf_frame _ _ s _ hb hd hh (by simp) (by simp) (by simp) (by simp)
      (by simp) (by simp) (by simp)
  split
  · exact inv_leaf_frame _ _ s _ hb hd hh (by simp) (by simp) (by simp) (by simp)
      (by simp) (by simp) (by simp)
  split
  · exact inv_leaf_frame _ _ s _ hb hd hh (by simp) (by simp) (by simp) (by simp)
      (by simp) (by simp) (by simp)
  cases hv : grub_linuxefi_secure_validate e.shim
  · simp only [hv]
    try rw [if_pos rfl]
    exact inv_leaf_frame _ _ s _ hb hd hh (by simp) (by simp) (by simp) (by simp)
      (by simp) (by simp) (by simp)
  · simp only [hv]
    try rw [if_neg (by simp)]
    unfold linuxStage2
    cases hp : e.paramsAllocOk
    · simp only [hp, allocAddr_false, efiAllocatePages_false]
      try rw [if_pos rfl]
      exact inv_leaf_params_zero _ _ s _ hb hd hh (by simp) (by simp) (by simp) (by simp)
        (by simp) (by simp) (by simp)
    · simp only [hp, allocAddr_true]
      rw [if_neg (pageAddr_ne_zero _)]
      split
      · exact inv_leaf_params_only _ _ s _ (BYTES_TO_PAGES 16384) hb hd hh (by simp) (by simp) (by simp)
          (by simp) (by simp) (by simp) (by simp [hh])
      split
      · exact inv_leaf_params_only _ _ s _ (BYTES_TO_PAGES 16384) hb hd hh (by simp) (by simp) (by simp)
          (by simp) (by simp) (by simp) (by simp [hh])
      split
      · exact inv_leaf_params_only _ _ s _ (BYTES_TO_PAGES 16384) hb hd hh (by simp) (by simp) (by simp)
          (by simp) (by simp) (by simp) (by simp [hh])
      split
      · exact inv_leaf_params_only _ _ s _ (BYTES_TO_PAGES 16384) hb hd hh (by simp) (by simp) (by simp)
          (by simp) (by simp) (by simp) (by simp [hh])
      unfold linuxStage3
      try simp only [efiAllocatePages_heap_true, efiAllocatePages_trace_true,
            efiAllocatePages_errno, efiAllocatePages_errmsg, efiAllocatePages_loaded,
            efiAllocatePages_params, efiAllocatePages_linux_cmdline,
            efiAllocatePages_kernel_mem, efiAllocatePages_kernel_size,
            efiAllocatePages_initrd_mem, efiAllocatePages_handover_offset,
            efiAllocatePages_paramsBlk, efiAllocatePages_initrdData,
            efiAllocatePages_ctr_true, if_true, if_false, ite_true, ite_false, allocAddr_true, allocAddr_false]
      cases hc : e.cmdlineAllocOk
      · simp only [hc, allocAddr_false, efiAllocatePages_false]
        try rw [if_pos rfl]
        exact inv_leaf_cmdline_zero _ _ s _ (BYTES_TO_PAGES 16384) hb hd hh (by simp)
          (by simp) (by simp) (by simp) (by simp) (by simp) (by simp [hh])
      · simp only [hc, allocAddr_true]
        try simp only [efiAllocatePages_heap_true, efiAllocatePages_trace_true,
            efiAllocatePages_errno, efiAllocatePages_errmsg, efiAllocatePages_loaded,
            efiAllocatePages_params, efiAllocatePages_linux_cmdline,
            efiAllocatePages_kernel_mem, efiAllocatePages_kernel_size,
            efiAllocatePages_initrd_mem, efiAllocatePages_handover_offset,
            efiAllocatePages_paramsBlk, efiAllocatePages_initrdData,
            efiAllocatePages_ctr_true, if_true, if_false, ite_true, ite_false, allocAddr_true, allocAddr_false]
        rw [if_neg (pageAddr_ne_zero _)]
        try simp only [efiAllocatePages_heap_true, efiAllocatePages_trace_true,
            efiAllocatePages_errno, efiAllocatePages_errmsg, efiAllocatePages_loaded,
            efiAllocatePages_params, efiAllocatePages_linux_cmdline,
            efiAllocatePages_kernel_mem, efiAllocatePages_kernel_size,
            efiAllocatePages_initrd_mem, efiAllocatePages_handover_offset,
            efiAllocatePages_paramsBlk, efiAllocatePages_initrdData,
            efiAllocatePages_ctr_true, if_true, if_false, ite_true, ite_false, allocAddr_true, allocAddr_false]
        cases hk : e.kernelPrefOk
        · simp only [hk, allocAddr_false, efiAllocatePages_false]
          try rw [if_pos rfl]
          try rw [if_pos rfl]
          cases hm : e.kernelMaxOk
          · simp only [hm, allocAddr_false, efiAllocatePages_false]
            try rw [if_pos rfl]
            exact inv_leaf_kernel_zero _ _ s _ (BYTES_TO_PAGES 16384)
              (BYTES_TO_PAGES (e.hdr.cmdline_size + 1)) hb hd hh (by simp) (by simp)
              (by simp) (by simp) (by simp) (by simp) (by simp [hh])
          · simp only [hm, allocAddr_true]
            try simp only [efiAllocatePages_heap_true, efiAllocatePages_trace_true,
            efiAllocatePages_errno, efiAllocatePages_errmsg, efiAllocatePages_loaded,
            efiAllocatePages_params, efiAllocatePages_linux_cmdline,
            efiAllocatePages_kernel_mem, efiAllocatePages_kernel_size,
            efiAllocatePages_initrd_mem, efiAllocatePages_handover_offset,
            efiAllocatePages_paramsBlk, efiAllocatePages_initrdData,
            efiAllocatePages_ctr_true, if_true, if_false, ite_true, ite_false, allocAddr_true, allocAddr_false]
            rw [if_neg (pageAddr_ne_zero _)]
            try simp only [efiAllocatePages_heap_true, efiAllocatePages_trace_true,
            efiAllocatePages_errno, efiAllocatePages_errmsg, efiAllocatePages_loaded,
            efiAllocatePages_params, efiAllocatePages_linux_cmdline,
            efiAllocatePages_kernel_mem, efiAllocatePages_kernel_size,
            efiAllocatePages_initrd_mem, efiAllocatePages_handover_offset,
            efiAllocatePages_paramsBlk, efiAllocatePages_initrdData,
            efiAllocatePages_ctr_true, if_true, if_false, ite_true, ite_false, allocAddr_true, allocAddr_false]
            exact inv_leaf_success _ s _ (BYTES_TO_PAGES 16384)
              (BYTES_TO_PAGES (e.hdr.cmdline_size + 1)) (BYTES_TO_PAGES e.hdr.init_size)
              hb hd hh he (by simp) (by simp) (by simp) (by simp) (by simp) (by simp)
              (by simp) (by simp [hh])
        · simp only [hk, allocAddr_true]
          try simp only [efiAllocatePages_heap_true, efiAllocatePages_trace_true,
            efiAllocatePages_errno, efiAllocatePages_errmsg, efiAllocatePages_loaded,
            efiAllocatePages_params, efiAllocatePages_linux_cmdline,
            efiAllocatePages_kernel_mem, efiAllocatePages_kernel_size,
            efiAllocatePages_initrd_mem, efiAllocatePages_handover_offset,
            efiAllocatePages_paramsBlk, efiAllocatePages_initrdData,
            efiAllocatePages_ctr_true, if_true, if_false, ite_true, ite_false, allocAddr_true, allocAddr_false]
          try rw [if_neg (pageAddr_ne_zero _)]
          try rw [if_neg (pageAddr_ne_zero _)]
          try rw [if_neg (pageAddr_ne_zero _)]
          try simp only [efiAllocatePages_heap_true, efiAllocatePages_trace_true,
            efiAllocatePages_errno, efiAllocatePages_errmsg, efiAllocatePages_loaded,
            efiAllocatePages_params, efiAllocatePages_linux_cmdline,
            efiAllocatePages_kernel_mem, efiAllocatePages_kernel_size,
            efiAllocatePages_initrd_mem, efiAllocatePages_handover_offset,
            efiAllocatePages_paramsBlk, efiAllocatePages_initrdData,
            efiAllocatePages_ctr_true, if_true, if_false, ite_true, ite_false, allocAddr_true, allocAddr_false]
          exact inv_leaf_success _ s _ (BYTES_TO_PAGES 16384)
            (BYTES_TO_PAGES (e.hdr.cmdline_size + 1)) (BYTES_TO_PAGES e.hdr.init_size)
            hb hd hh he (by simp) (by simp) (by simp) (by simp) (by simp) (by simp)
            (by simp) (by simp [hh])

theorem liveH_cons_eq (c : Cell) (h : List Cell) (k : Kind) (hk : c.kind = k) :
    liveH (c :: h) k = c.addr :: liveH h k := by
  simp [liveH, List.filter_cons, hk]

theorem liveH_cons_ne (c : Cell) (h : List Cell) (k : Kind) (hk : c.kind ≠ k) :
    liveH (c :: h) k = liveH h k := by
  simp [liveH, List.filter_cons, hk]

theorem liveH_filter_ne (h : List Cell) (k : Kind) (a : Nat)
    (ha : ∀ c ∈ h, c.addr ≠ a) :
    liveH (h.filter (fun c => c.addr != a)) k = liveH h k := by
  rw [List.filter_eq_self.mpr]
  intro c hc
  simp [ha c hc]

theorem ptrsDistinct4_zeroI (p c k i : Nat) (hd : ptrsDistinct4 p c k i) :
    ptrsDistinct4 p c k 0 := by
  unfold ptrsDistinct4 at *
  omega

theorem ptrsDistinct4_freshI (p c k i B v : Nat) (hd : ptrsDistinct4 p c k i)
    (bp : p ≤ B) (bc : c ≤ B) (bk : k ≤ B) (hv : B < v) : ptrsDistinct4 p c k v := by
  unfold ptrsDistinct4 at *
  omega

theorem initrdReadLoop_frame (files : List IFile) (s : S) :
    (initrdReadLoop s files).loaded = s.loaded ∧
    (initrdReadLoop s files).params = s.params ∧
    (initrdReadLoop s files).linux_cmdline = s.linux_cmdline ∧
    (initrdReadLoop s files).kernel_mem = s.kernel_mem ∧
    (initrdReadLoop s files).initrd_mem = s.initrd_mem ∧
    (initrdReadLoop s files).ctr = s.ctr ∧
    (initrdReadLoop s files).heap = s.heap ∧
    (initrdReadLoop s files).kernel_size = s.kernel_size := by
  induction files generalizing s with
  | nil => simp [initrdReadLoop]
  | cons f r ih =>
    rw [initrdReadLoop]
    split
    · simp
    · simpa using ih _

theorem initrdEpilogue_loaded (n : Nat) (s : S) :
    (initrdEpilogue n s).loaded = s.loaded := by
  unfold initrdEpilogue; split <;> rfl

theorem initrdEpilogue_params (n : Nat) (s : S) :
    (initrdEpilogue n s).params = s.params := by
  unfold initrdEpilogue; split <;> rfl

theorem initrdEpilogue_linux_cmdline (n : Nat) (s : S) :
    (initrdEpilogue n s).linux_cmdline = s.linux_cmdline := by
  unfold initrdEpilogue; split <;> rfl

theorem initrdEpilogue_kernel_mem (n : Nat) (s : S) :
    (initrdEpilogue n s).kernel_mem = s.kernel_mem := by
  unfold initrdEpilogue; split <;> rfl

theorem initrdEpilogue_initrd_mem (n : Nat) (s : S) :
    (initrdEpilogue n s).initrd_mem = s.initrd_mem := by
  unfold initrdEpilogue; split <;> rfl

theorem initrdEpilogue_ctr (n : Nat) (s : S) :
    (initrdEpilogue n s).ctr = s.ctr := by
  unfold initrdEpilogue; split <;> rfl

theorem initrd_inv_frame_leaf (n : Nat) (s t : S)
    (hb : ptrBound s) (hd : ptrsDistinct s) (hsh : s.loaded = true → LoadedShape s)
    (hfe : s.loaded = false → s.heap = []) (hni : liveA s Kind.initrd = [])
    (h0 : t.loaded = s.loaded) (h2 : t.params = s.params)
    (h3 : t.linux_cmdline = s.linux_cmdline) (h4 : t.kernel_mem = s.kernel_mem)
    (h5 : t.initrd_mem = s.initrd_mem) (h6 : t.ctr = s.ctr) (h7 : t.heap = s.heap) :
    Inv (initrdEpilogue n t) := by
  have hne : ∀ c ∈ s.heap, c.addr ≠ s.initrd_mem ∨ s.initrd_mem = 0 := by
    intro c hc
    cases hl : s.loaded
    · rw [hfe hl] at hc; cases hc
    · obtain ⟨hp0, hc0, hk0, hP, hC, hK, _⟩ := hsh hl
      obtain ⟨_, d2, d3, d4, d5, d6⟩ := hd
      have haddr := mem_liveA s c hc
      by_cases hi0 : s.initrd_mem = 0
      · exact Or.inr hi0
      refine Or.inl ?_
      cases hck : c.kind
      · rw [hck, hP] at haddr; simp at haddr; rw [haddr]
        exact d3 hp0 hi0
      · rw [hck, hC] at haddr; simp at haddr; rw [haddr]
        exact d5 hc0 hi0
      · rw [hck, hK] at haddr; simp at haddr; rw [haddr]
        exact d6 hk0 hi0
      · rw [hck] at haddr; rw [hni] at haddr; cases haddr
  have hheap : (initrdEpilogue n t).heap = s.heap := by
    unfold initrdEpilogue
    split
    · next hcond =>
      simp only [efiFreePages_heap, h7, h5]
      rw [List.filter_eq_self.mpr]
      intro c hc
      rcases hne c hc with hx | hx
      · simp [hx]
      · rw [h5, hx] at hcond
        exact absurd rfl hcond.1
    · exact h7
  refine ⟨?_, ?_, ?_, ?_⟩
  · refine ⟨?_, ?_, ?_, ?_, ?_⟩
    · rw [initrdEpilogue_params, initrdEpilogue_ctr, h2, h6]; exact hb.1
    · rw [initrdEpilogue_linux_cmdline, initrdEpilogue_ctr, h3, h6]; exact hb.2.1
    · rw [initrdEpilogue_kernel_mem, initrdEpilogue_ctr, h4, h6]; exact hb.2.2.1
    · rw [initrdEpilogue_initrd_mem, initrdEpilogue_ctr, h5, h6]; exact hb.2.2.2.1
    · rw [hheap, initrdEpilogue_ctr, h6]; exact hb.2.2.2.2
  · unfold ptrsDistinct
    rw [initrdEpilogue_params, initrdEpilogue_linux_cmdline, initrdEpilogue_kernel_mem,
        initrdEpilogue_initrd_mem, h2, h3, h4, h5]
    exact hd
  · intro hl
    rw [initrdEpilogue_loaded, h0] at hl
    obtain ⟨hp0, hc0, hk0, hP, hC, hK, hI⟩ := hsh hl
    have e1 := initrdEpilogue_params n t
    have e2 := initrdEpilogue_linux_cmdline n t
    have e3 := initrdEpilogue_kernel_mem n t
    have e4 := initrdEpilogue_initrd_mem n t
    have e5 : ∀ k, liveA (initrdEpilogue n t) k = liveA s k := by
      intro k
      show liveH (initrdEpilogue n t).heap k = liveA s k
      rw [hheap]
      rfl
    refine ⟨?_, ?_, ?_, ?_, ?_, ?_, ?_⟩
    · rw [e1, h2]; exact hp0
    · rw [e2, h3]; exact hc0
    · rw [e3, h4]; exact hk0
    · rw [e5, e1, h2]; exact hP
    · rw [e5, e2, h3]; exact hC
    · rw [e5, e3, h4]; exact hK
    · rcases hI with hI | ⟨hi0, hI⟩
      · exact Or.inl (by rw [e5]; exact hI)
      · exact Or.inr ⟨by rw [e4, h5]; exact hi0, by rw [e5, e4, h5]; exact hI⟩
  · intro hl
    rw [initrdEpilogue_loaded, h0] at hl
    rw [hheap]
    exact hfe hl

theorem initrd_inv_alloc0_leaf (n : Nat) (s t : S)
    (hb : ptrBound s) (hd : ptrsDistinct s) (hsh : s.loaded = true → LoadedShape s)
    (hfe : s.loaded = false → s.heap = []) (hni : liveA s Kind.initrd = [])
    (h0 : t.loaded = s.loaded) (h2 : t.params = s.params)
    (h3 : t.linux_cmdline = s.linux_cmdline) (h4 : t.kernel_mem = s.kernel_mem)
    (h5 : t.initrd_mem = 0) (h6 : t.ctr = s.ctr) (h7 : t.heap = s.heap) :
    Inv (initrdEpilogue n t) := by
  have hid : initrdEpilogue n t = t := by
    unfold initrdEpilogue
    rw [if_neg (by simp [h5])]
  rw [hid]
  refine ⟨⟨?_, ?_, ?_, ?_, ?_⟩, ?_, ?_, ?_⟩
  · rw [h2, h6]; exact hb.1
  · rw [h3, h6]; exact hb.2.1
  · rw [h4, h6]; exact hb.2.2.1
  · rw [h5]; omega
  · rw [h7, h6]; exact hb.2.2.2.2
  · unfold ptrsDistinct
    rw [h2, h3, h4, h5]
    exact ptrsDistinct4_zeroI _ _ _ s.initrd_mem hd
  · intro hl
    rw [h0] at hl
    obtain ⟨hp0, hc0, hk0, hP, hC, hK, _⟩ := hsh hl
    have e5 : ∀ k, liveA t k = liveA s k := by
      intro k
      show liveH t.heap k = liveA s k
      rw [h7]
      rfl
    exact ⟨by rw [h2]; exact hp0, by rw [h3]; exact hc0, by rw [h4]; exact hk0,
           by rw [e5, h2]; exact hP, by rw [e5, h3]; exact hC, by rw [e5, h4]; exact hK,
           Or.inl (by rw [e5]; exact hni)⟩
  · intro hl
    rw [h0] at hl
    rw [h7]
    exact hfe hl

theorem initrd_inv_readfail_leaf (n Q : Nat) (s t : S)
    (hb : ptrBound s) (hd : ptrsDistinct s) (hlt : s.loaded = true)
    (hsh : LoadedShape s) (hni : liveA s Kind.initrd = [])
    (h0 : t.loaded = s.loaded) (h1 : t.errno ≠ ErrNo.none)
    (h2 : t.params = s.params) (h3 : t.linux_cmdline = s.linux_cmdline)
    (h4 : t.kernel_mem = s.kernel_mem) (h5 : t.initrd_mem = pageAddr s.ctr)
    (h6 : t.ctr = s.ctr + 1)
    (h7 : t.heap = { addr := pageAddr s.ctr, pages := Q, kind := Kind.initrd } :: s.heap) :
    Inv (initrdEpilogue n t) := by
  have hheap : (initrdEpilogue n t).heap = s.heap := by
    unfold initrdEpilogue
    rw [if_pos ⟨by rw [h5]; exact pageAddr_ne_zero _, h1⟩]
    simp only [efiFreePages_heap, h7, h5]
    rw [List.filter_cons]
    simp only [bne_self_eq_false, Bool.false_eq_true, if_false, ite_false]
    exact List.filter_eq_self.mpr fun c hc => by
      have := (hb.2.2.2.2 c hc).1
      simp only [bne_iff_ne, ne_eq, pageAddr]
      omega
  refine ⟨⟨?_, ?_, ?_, ?_, ?_⟩, ?_, ?_, ?_⟩
  · rw [initrdEpilogue_params, initrdEpilogue_ctr, h2, h6]
    have := hb.1
    omega
  · rw [initrdEpilogue_linux_cmdline, initrdEpilogue_ctr, h3, h6]
    have := hb.2.1
    omega
  · rw [initrdEpilogue_kernel_mem, initrdEpilogue_ctr, h4, h6]
    have := hb.2.2.1
    omega
  · rw [initrdEpilogue_initrd_mem, initrdEpilogue_ctr, h5, h6]
    exact pageAddr_le _ _ (by omega)
  · rw [hheap, initrdEpilogue_ctr, h6]
    intro c hc
    have := hb.2.2.2.2 c hc
    omega
  · unfold ptrsDistinct
    rw [initrdEpilogue_params, initrdEpilogue_linux_cmdline, initrdEpilogue_kernel_mem,
        initrdEpilogue_initrd_mem, h2, h3, h4, h5]
    exact ptrsDistinct4_freshI _ _ _ s.initrd_mem (4096 * s.ctr) _ hd
      hb.1 hb.2.1 hb.2.2.1 (pageAddr_gt _ _ (by omega))
  · intro _
    obtain ⟨hp0, hc0, hk0, hP, hC, hK, _⟩ := hsh
    have e5 : ∀ k, liveA (initrdEpilogue n t) k = liveA s k := by
      intro k
      show liveH (initrdEpilogue n t).heap k = liveA s k
      rw [hheap]
      rfl
    refine ⟨?_, ?_, ?_, ?_, ?_, ?_, Or.inl ?_⟩
    · rw [initrdEpilogue_params, h2]; exact hp0
    · rw [initrdEpilogue_linux_cmdline, h3]; exact hc0
    · rw [initrdEpilogue_kernel_mem, h4]; exact hk0
    · rw [e5, initrdEpilogue_params, h2]; exact hP
    · rw [e5, initrdEpilogue_linux_cmdline, h3]; exact hC
    · rw [e5, initrdEpilogue_kernel_mem, h4]; exact hK
    · rw [e5]; exact hni
  · intro hl
    rw [initrdEpilogue_loaded, h0, hlt] at hl
    cases hl

theorem initrd_inv_success_leaf (n Q : Nat) (s t : S)
    (hb : ptrBound s) (hd : ptrsDistinct s) (hlt : s.loaded = true)
    (hsh : LoadedShape s) (hni : liveA s Kind.initrd = [])
    (h0 : t.loaded = s.loaded) (h1 : t.errno = ErrNo.none)
    (h2 : t.params = s.params) (h3 : t.linux_cmdline = s.linux_cmdline)
    (h4 : t.kernel_mem = s.kernel_mem) (h5 : t.initrd_mem = pageAddr s.ctr)
    (h6 : t.ctr = s.ctr + 1)
    (h7 : t.heap = { addr := pageAddr s.ctr, pages := Q, kind := Kind.initrd } :: s.heap) :
    Inv (initrdEpilogue n t) := by
  have hid : initrdEpilogue n t = t := by
    unfold initrdEpilogue
    rw [if_neg (by simp [h1])]
  rw [hid]
  refine ⟨⟨?_, ?_, ?_, ?_, ?_⟩, ?_, ?_, ?_⟩
  · rw [h2, h6]
    have := hb.1
    omega
  · rw [h3, h6]
    have := hb.2.1
    omega
  · rw [h4, h6]
    have := hb.2.2.1
    omega
  · rw [h5, h6]
    exact pageAddr_le _ _ (by omega)
  · rw [h7, h6]
    intro c hc
    rcases List.mem_cons.mp hc with hc | hc
    · rw [hc]
      exact ⟨pageAddr_le _ _ (by omega), pageAddr_ne_zero _⟩
    · have := hb.2.2.2.2 c hc
      omega
  · unfold ptrsDistinct
    rw [h2, h3, h4, h5]
    exact ptrsDistinct4_freshI _ _ _ s.initrd_mem (4096 * s.ctr) _ hd
      hb.1 hb.2.1 hb.2.2.1 (pageAddr_gt _ _ (by omega))
  · intro _
    obtain ⟨hp0, hc0, hk0, hP, hC, hK, _⟩ := hsh
    have eP : liveA t Kind.params = liveA s Kind.params := by
      show liveH t.heap Kind.params = liveA s Kind.params
      rw [h7, liveH_cons_ne _ _ _ (by simp)]
      rfl
    have eC : liveA t Kind.cmdline = liveA s Kind.cmdline := by
      show liveH t.heap Kind.cmdline = liveA s Kind.cmdline
      rw [h7, liveH_cons_ne _ _ _ (by simp)]
      rfl
    have eK : liveA t Kind.kernel = liveA s Kind.kernel := by
      show liveH t.heap Kind.kernel = liveA s Kind.kernel
      rw [h7, liveH_cons_ne _ _ _ (by simp)]
      rfl
    have eI : liveA t Kind.initrd = pageAddr s.ctr :: liveA s Kind.initrd := by
      show liveH t.heap Kind.initrd = pageAddr s.ctr :: liveA s Kind.initrd
      rw [h7, liveH_cons_eq _ _ _ (by simp)]
      rfl
    refine ⟨?_, ?_, ?_, ?_, ?_, ?_, Or.inr ⟨?_, ?_⟩⟩
    · rw [h2]; exact hp0
    · rw [h3]; exact hc0
    · rw [h4]; exact hk0
    · rw [eP, h2]; exact hP
    · rw [eC, h3]; exact hC
    · rw [eK, h4]; exact hK
    · rw [h5]; exact pageAddr_ne_zero _
    · rw [eI, hni, h5]
  · intro hl
    rw [h0, hlt] at hl
    cases hl


set_option maxHeartbeats 1000000 in
theorem initrd_inv (e : InitrdEnv) (s : S) (hb : ptrBound s) (hd : ptrsDistinct s)
    (hsh : s.loaded = true → LoadedShape s) (hfe : s.loaded = false → s.heap = [])
    (hni : liveA s Kind.initrd = []) :
    Inv (grub_cmd_initrd e s) := by
  unfold grub_cmd_initrd initrdBody
  split
  · exact initrd_inv_frame_leaf _ s _ hb hd hsh hfe hni (by simp) (by simp) (by simp)
      (by simp) (by simp) (by simp) (by simp)
  split
  · exact initrd_inv_frame_leaf _ s _ hb hd hsh hfe hni (by simp) (by simp) (by simp)
      (by simp) (by simp) (by simp) (by simp)
  rename_i hlf
  have hlt : s.loaded = true := by revert hlf; cases s.loaded <;> simp
  split
  · exact initrd_inv_frame_leaf _ s _ hb hd hsh hfe hni (by simp) (by simp) (by simp)
      (by simp) (by simp) (by simp) (by simp)
  dsimp only
  split
  · exact initrd_inv_frame_leaf _ s _ hb hd hsh hfe hni (by simp) (by simp) (by simp)
      (by simp) (by simp) (by simp) (by simp)
  cases ha : e.allocOk
  · simp only [ha, allocAddr_false, efiAllocatePages_false]
    try rw [if_pos rfl]
    exact initrd_inv_alloc0_leaf _ s _ hb hd hsh hfe hni (by simp) (by simp) (by simp)
      (by simp) (by simp) (by simp) (by simp)
  · simp only [ha, allocAddr_true]
    rw [if_neg (pageAddr_ne_zero _)]
    split
    · rename_i herr
      exact initrd_inv_readfail_leaf _ (BYTES_TO_PAGES (openLoop e.files).1) s _
        hb hd hlt (hsh hlt) hni
        (by simp [initrdReadLoop_frame]) herr
        (by simp [initrdReadLoop_frame]) (by simp [initrdReadLoop_frame])
        (by simp [initrdReadLoop_frame]) (by simp [initrdReadLoop_frame])
        (by simp [initrdReadLoop_frame]) (by simp [initrdReadLoop_frame])
    · rename_i herr
      rw [not_ne_iff] at herr
      exact initrd_inv_success_leaf _ (BYTES_TO_PAGES (openLoop e.files).1) s _
        hb hd hlt (hsh hlt) hni
        (by simp [initrdReadLoop_frame]) (by simpa using herr)
        (by simp [initrdReadLoop_frame]) (by simp [initrdReadLoop_frame])
        (by simp [initrdReadLoop_frame]) (by simp [initrdReadLoop_frame])
        (by simp [initrdReadLoop_frame]) (by simp [initrdReadLoop_frame])

theorem inv_S0 : Inv S0 := by
  refine ⟨⟨?_, ?_, ?_, ?_, ?_⟩, ?_, ?_, ?_⟩ <;>
    simp [S0, ptrBound, ptrsDistinct, ptrsDistinct4]

theorem run_inv (ops : List Op) : ∀ s : S, Inv s → goodSeqB s ops = true →
    Inv (run s ops) := by
  induction ops with
  | nil => intro s h _; exact h
  | cons op rest ih =>
    intro s h hg
    rw [run, List.foldl_cons]
    cases op with
    | load e =>
      simp only [goodSeqB, Bool.and_eq_true] at hg
      exact ih _ (load_inv e (clearErr s) h.1 h.2.1 (by simpa using hg.1) rfl) hg.2
    | initrd e =>
      simp only [goodSeqB, Bool.and_eq_true] at hg
      exact ih _ (initrd_inv e (clearErr s) h.1 h.2.1 h.2.2.1 h.2.2.2
        (by simpa using hg.1)) hg.2
    | unload =>
      simp only [goodSeqB, Bool.and_eq_true] at hg
      exact ih _ (unload_inv (clearErr s) h) hg.2
    | boot =>
      simp only [goodSeqB, Bool.and_eq_true] at hg
      exact ih _ h hg.2

theorem goodSeqB_append (pre suf : List Op) : ∀ s : S,
    goodSeqB s (pre ++ suf) = true → goodSeqB s pre = true := by
  induction pre with
  | nil => intro s _; rfl
  | cons op rest ih =>
    intro s h
    rw [List.cons_append] at h
    cases op <;>
      simp only [goodSeqB, Bool.and_eq_true] at h ⊢ <;>
      exact ⟨h.1, ih _ h.2⟩

theorem inv_atMostOne (s : S) (h : Inv s) : AtMostOneEach s := by
  obtain ⟨hb, hd, hsh, hfe⟩ := h
  cases hl : s.loaded
  · have he := hfe hl
    have hz : ∀ k, liveA s k = [] := by
      intro k
      show liveH s.heap k = []
      rw [he]
      rfl
    constructor
    · intro k
      rw [hz]
      simp
    · rw [hl]
      constructor
      · intro hcon; cases hcon
      · intro hcon
        exact absurd (hz Kind.params) hcon.1
  · obtain ⟨hp0, hc0, hk0, hP, hC, hK, hI⟩ := hsh hl
    constructor
    · intro k
      cases k
      · rw [hP]; simp
      · rw [hC]; simp
      · rw [hK]; simp
      · rcases hI with hI | ⟨_, hI⟩ <;> rw [hI] <;> simp
    · rw [hl]
      exact ⟨fun _ => ⟨by rw [hP]; simp, by rw [hK]; simp⟩, fun _ => rfl⟩

/-- C10 (amended): along every sequence of dispatched commands that obeys
the dispatch discipline — every kernel load issued with no firmware
allocation outstanding and every initrd load with no initrd buffer
outstanding — after every prefix at most one allocation of each resource
kind is outstanding, and the module is loaded exactly when a boot
parameter block and a kernel region are both live. -/
theorem C10_amended (ops pre suf : List Op) (hg : goodSeqB S0 ops = true)
    (hsplit : ops = pre ++ suf) : AtMostOneEach (run S0 pre) :=
  inv_atMostOne _ (run_inv pre S0 inv_S0 (goodSeqB_append pre suf S0 (hsplit ▸ hg)))

theorem C10_amended_witness :
    goodSeqB S0 [Op.load goodLoadEnv, Op.initrd goodInitrdEnv, Op.unload,
                 Op.load goodLoadEnv, Op.unload] = true ∧
    AtMostOneEach (run S0 [Op.load goodLoadEnv, Op.initrd goodInitrdEnv, Op.unload,
                           Op.load goodLoadEnv]) :=
  ⟨by decide,
   C10_amended
     [Op.load goodLoadEnv, Op.initrd goodInitrdEnv, Op.unload,
      Op.load goodLoadEnv, Op.unload]
     [Op.load goodLoadEnv, Op.initrd goodInitrdEnv, Op.unload, Op.load goodLoadEnv]
     [Op.unload] (by decide) rfl⟩

/-- C6 (amended): a load that reaches the header checks with a bad-format
image — wrong boot sector magic, or a zero handover offset — fails with
the bad OS error and one of the two bad-format messages, the loaded flag
stays clear, and no memory remains allocated at the end of the command;
the 16 KiB boot parameter block allocated before the checks is released
on the failure path rather than never allocated. -/
theorem C6_amended (e : LoadEnv) (s : S) (hh : s.heap = [])
    (hr : reachesHeaderChecks e) (hbad : badFormatHdr e.hdr) :
    (grub_cmd_linux e s).errno = ErrNo.badOS ∧
    (grub_cmd_linux e s).heap = [] ∧
    (grub_cmd_linux e s).loaded = false ∧
    ((grub_cmd_linux e s).errmsg = "invalid magic number" ∨
     (grub_cmd_linux e s).errmsg = "kernel doesn't support EFI handover") := by
  obtain ⟨h1, h2, h3, h4, h5, h6⟩ := hr
  unfold grub_cmd_linux linuxBody
  rw [if_neg h1, if_neg (by simp [h2]), if_neg (by simp [h3]), if_neg (by simp [h4])]
  simp only [h5]
  try rw [if_neg (by simp)]
  unfold linuxStage2
  simp only [h6, allocAddr_true]
  rw [if_neg (pageAddr_ne_zero _)]
  rcases hbad with hmag | ⟨hmag, hsec, hver, hho⟩
  · rw [if_pos hmag]
    refine ⟨by rw [epi_errno], ?_, epi_loaded_of_err _ _ _ (by simp), Or.inl (by rw [epi_errmsg])⟩
    refine epi_heap_empty _ _ _ (by simp) ?_
    intro c hc
    simp only [efiAllocatePages_heap_true, hh, List.mem_singleton] at hc
    rw [hc]
    exact ⟨pageAddr_ne_zero _, Or.inl (by simp)⟩
  · rw [if_neg (by simp [hmag]),
        if_neg (by simp only [GRUB_LINUX_MAX_SETUP_SECTS] at hsec ⊢; omega),
        if_neg (by omega), if_pos hho]
    refine ⟨by rw [epi_errno], ?_, epi_loaded_of_err _ _ _ (by simp), Or.inr (by rw [epi_errmsg])⟩
    refine epi_heap_empty _ _ _ (by simp) ?_
    intro c hc
    simp only [efiAllocatePages_heap_true, hh, List.mem_singleton] at hc
    rw [hc]
    exact ⟨pageAddr_ne_zero _, Or.inl (by simp)⟩

theorem C6_amended_witness :
    S0.heap = [] ∧ reachesHeaderChecks badMagicEnv ∧ badFormatHdr badMagicEnv.hdr ∧
    ((grub_cmd_linux badMagicEnv S0).errno = ErrNo.badOS ∧
     (grub_cmd_linux badMagicEnv S0).heap = [] ∧
     (grub_cmd_linux badMagicEnv S0).loaded = false ∧
     ((grub_cmd_linux badMagicEnv S0).errmsg = "invalid magic number" ∨
      (grub_cmd_linux badMagicEnv S0).errmsg = "kernel doesn't support EFI handover")) :=
  ⟨rfl, by unfold reachesHeaderChecks; decide, by unfold badFormatHdr; decide,
   C6_amended badMagicEnv S0 rfl (by unfold reachesHeaderChecks; decide)
     (by unfold badFormatHdr; decide)⟩

theorem C3_amended_witness :
    (run S0 [Op.load goodLoadEnv]).loaded = true ∧
    (grub_cmd_initrd shortReadInitrdEnv (run S0 [Op.load goodLoadEnv])).errno
      = ErrNo.fileReadError ∧
    (grub_cmd_initrd shortReadInitrdEnv (run S0 [Op.load goodLoadEnv])).heap
      = (run S0 [Op.load goodLoadEnv]).heap := by
  have h := C3_amended_thm shortReadInitrdEnv (run S0 [Op.load goodLoadEnv])
    (by decide) (by decide) (by decide) (by decide)
    [] { openOk := true, size := 10, data := [1, 2, 3, 4, 5] } []
    (by decide) (by decide) (by decide) (by decide) (by decide)
  exact ⟨by decide, h.1, h.2.2.2.1⟩

theorem C9_witness :
    (run S0 [Op.load goodLoadEnv]).loaded = true ∧
    (grub_cmd_initrd goodInitrdEnv (run S0 [Op.load goodLoadEnv])).errno = ErrNo.none ∧
    (grub_cmd_initrd goodInitrdEnv (run S0 [Op.load goodLoadEnv])).paramsBlk.ramdisk_size
      = 16 ∧
    (grub_cmd_initrd goodInitrdEnv (run S0 [Op.load goodLoadEnv])).initrdData
      = [1, 2, 3, 4, 5, 6, 7, 8, 9, 10, 0, 0, 11, 12, 13, 0] := by
  have h := C9_thm goodInitrdEnv (run S0 [Op.load goodLoadEnv])
    (by decide) (by decide) (by decide) (by decide) (by decide) (by decide) (by decide)
  refine ⟨by decide, h.1, ?_, ?_⟩
  · rw [h.2.1]
    decide
  · rw [h.2.2.1]
    decide

end LinuxEfi
